import Mathlib

/-!
Verification of the Billing-App document counter / numbering service and the
project archive export/import codec.

The development is a shallow embedding of the Python sources:
  * backend/billing_app/services/counter_store.py
  * backend/billing_app/invoices/models.py (DocumentCounter, Invoice)
  * backend/receipts/models.py, backend/waybills/models.py
  * backend/billing_app/services/project_io.py

Modelling conventions:
  * Python ints are Lean `Int`; byte strings are `List Nat`.
  * Python strings produced by f-string formatting are built as `List Char`
    and wrapped with `String.mk`, so that string equality reduces to list
    equality.
  * `decimal.Decimal` values (only non-negative exponents occur in this code
    base) are pairs `(coeff : Int, scale : Nat)` denoting `coeff * 10 ^ (-scale)`;
    `format(value, "f")` and `Decimal(str)` are embedded at string level.
  * Zip member paths are modelled as lists of path segments (the textual
    split of the member name on "/"); a trailing-slash directory entry is
    modelled with an `isDir` flag.  `pathlib` normalisation (dropping empty
    and "." segments) is embedded as a filter.
  * Dates and aware datetimes are opaque integers; `isoformat` /
    `fromisoformat` form an exact bijection on them, so the archive model
    carries the values themselves.
  * Database state is explicit: a record of the counter row (lazily created,
    hence `Option`) and the three document tables kept in primary-key order
    (mirroring `order_by("id")` reads).  `transaction.atomic` is modelled by
    returning the pre-transaction state whenever the import body fails.
  * Python exceptions are the inductive `PyExc`; a function that can raise
    returns `Except PyExc`.
-/

/-- The three numbering namespaces (`DocumentType` in counter_store.py). -/
inductive DocumentType where
  | invoice
  | receipt
  | waybill
deriving DecidableEq, Repr

/-- Prefix mapping `_PREFIXES` from counter_store.py, as character lists. -/
def prefixChars : DocumentType → List Char
  | .invoice => ['I', 'N', 'V']
  | .receipt => ['R', 'E', 'C']
  | .waybill => ['W', 'A', 'Y']

/-- Decimal digit characters of a natural number, most significant first,
with explicit fuel so that the definition is structural and reduces by
`decide`/`rfl`.  This embeds Python's `str`/`format` conversion of a
non-negative integer to its decimal representation. -/
def decCharsAux : Nat → Nat → List Char
  | 0, _ => []
  | fuel + 1, n =>
      if n < 10 then [Nat.digitChar n]
      else decCharsAux fuel (n / 10) ++ [Nat.digitChar (n % 10)]

/-- Decimal representation of a natural number (e.g. `decChars 42 = ['4','2']`). -/
def decChars (n : Nat) : List Char := decCharsAux (n + 1) n

theorem decCharsAux_congr :
    ∀ f₁ f₂ n, n < f₁ → n < f₂ → decCharsAux f₁ n = decCharsAux f₂ n := by
  intro f₁
  induction f₁ with
  | zero => intro f₂ n h; omega
  | succ a ih =>
      intro f₂ n h₁ h₂
      cases f₂ with
      | zero => omega
      | succ b =>
          simp only [decCharsAux]
          by_cases h10 : n < 10
          · simp [h10]
          · simp only [h10, if_false]
            have hd : n / 10 < n := Nat.div_lt_self (by omega) (by omega)
            rw [ih b (n / 10) (by omega) (by omega)]

/-- Unfolding equation for `decChars`. -/
theorem decChars_eq (n : Nat) :
    decChars n = if n < 10 then [Nat.digitChar n]
                 else decChars (n / 10) ++ [Nat.digitChar (n % 10)] := by
  by_cases h : n < 10
  · simp [decChars, decCharsAux, h]
  · have hd : n / 10 < n := Nat.div_lt_self (by omega) (by omega)
    simp only [decChars, decCharsAux, h, if_false]
    rw [decCharsAux_congr n (n / 10 + 1) (n / 10) hd (Nat.lt_succ_self _)]
    rfl

/-- Numeric value of one digit character. -/
def charVal (c : Char) : Nat := c.toNat - 48

/-- Numeric value of a big-endian digit string (leading zeros allowed). -/
def digitsValNat (l : List Char) : Nat :=
  l.foldl (fun a c => 10 * a + charVal c) 0

/-- Left zero-padding to width `w` (Python `zfill` as used by `{v:0wd}`). -/
def zfill (w : Nat) (l : List Char) : List Char :=
  List.replicate (w - l.length) '0' ++ l

theorem digitChar_toNat_eq {d : Nat} (h : d < 10) :
    (Nat.digitChar d).toNat = 48 + d := by
  interval_cases d <;> rfl

theorem charVal_digitChar {d : Nat} (h : d < 10) : charVal (Nat.digitChar d) = d := by
  simp [charVal, digitChar_toNat_eq h]

theorem digitsValNat_append (l₁ l₂ : List Char) :
    digitsValNat (l₁ ++ l₂) =
      l₂.foldl (fun a c => 10 * a + charVal c) (digitsValNat l₁) := by
  simp [digitsValNat, List.foldl_append]

theorem decChars_ne_nil (n : Nat) : decChars n ≠ [] := by
  rw [decChars_eq]
  by_cases h : n < 10 <;> simp [h]

/-- Every character of `decChars n` is a decimal digit. -/
theorem decChars_mem_digit (n : Nat) :
    ∀ c ∈ decChars n, 48 ≤ c.toNat ∧ c.toNat ≤ 57 := by
  induction n using Nat.strong_induction_on with
  | _ n ih =>
      rw [decChars_eq]
      by_cases h : n < 10
      · simp only [h, if_true, List.mem_singleton]
        rintro c rfl
        rw [digitChar_toNat_eq h]; omega
      · simp only [h, if_false]
        intro c hc
        rcases List.mem_append.mp hc with h₁ | h₂
        · exact ih (n / 10) (Nat.div_lt_self (by omega) (by omega)) c h₁
        · rcases List.mem_singleton.mp h₂ with rfl
          rw [digitChar_toNat_eq (Nat.mod_lt _ (by omega))]
          have := Nat.mod_lt n (show 0 < 10 by omega)
          omega

/-- Parsing a printed natural number recovers it. -/
theorem digitsValNat_decChars (n : Nat) : digitsValNat (decChars n) = n := by
  induction n using Nat.strong_induction_on with
  | _ n ih =>
      rw [decChars_eq]
      by_cases h : n < 10
      · simp [h, digitsValNat, charVal_digitChar h]
      · simp only [h, if_false, digitsValNat_append]
        have hrec := ih (n / 10) (Nat.div_lt_self (by omega) (by omega))
        simp only [List.foldl_cons, List.foldl_nil]
        rw [hrec, charVal_digitChar (Nat.mod_lt _ (by omega))]
        omega

theorem digitsValNat_replicate_zero (k : Nat) (l : List Char) :
    digitsValNat (List.replicate k '0' ++ l) = digitsValNat l := by
  induction k with
  | zero => simp
  | succ m ihm =>
      have h0 : 10 * 0 + charVal '0' = 0 := by decide
      simp only [List.replicate_succ, List.cons_append, digitsValNat,
        List.foldl_cons] at ihm ⊢
      rw [h0]
      exact ihm

theorem digitsValNat_zfill (w : Nat) (l : List Char) :
    digitsValNat (zfill w l) = digitsValNat l :=
  digitsValNat_replicate_zero _ _

theorem zfill_mem_digit (w : Nat) (n : Nat) :
    ∀ c ∈ zfill w (decChars n), 48 ≤ c.toNat ∧ c.toNat ≤ 57 := by
  intro c hc
  rcases List.mem_append.mp hc with h₁ | h₂
  · rcases List.eq_of_mem_replicate h₁ with rfl
    exact ⟨by decide, by decide⟩
  · exact decChars_mem_digit n c h₂

theorem zfill_ne_nil (w : Nat) (n : Nat) : zfill w (decChars n) ≠ [] := by
  intro h
  rcases List.append_eq_nil.mp h with ⟨-, h₂⟩
  exact decChars_ne_nil n h₂

/-- Python integer formatting `f"{v:0{w}d}"`: zero-padded to total width `w`,
the minus sign counting towards the width. -/
def pyIntPad (w : Nat) (v : Int) : List Char :=
  if v < 0 then '-' :: zfill (w - 1) (decChars v.natAbs)
  else zfill w (decChars v.toNat)

theorem pyIntPad_inj {w : Nat} {v₁ v₂ : Int}
    (h : pyIntPad w v₁ = pyIntPad w v₂) : v₁ = v₂ := by
  unfold pyIntPad at h
  by_cases h₁ : v₁ < 0 <;> by_cases h₂ : v₂ < 0
  · simp only [h₁, h₂, if_true, List.cons.injEq, true_and] at h
    have := congrArg digitsValNat h
    rw [digitsValNat_zfill, digitsValNat_zfill,
        digitsValNat_decChars, digitsValNat_decChars] at this
    omega
  · simp only [h₁, h₂, if_true, if_false] at h
    have hm : '-' ∈ zfill w (decChars v₂.toNat) := h ▸ List.mem_cons_self _ _
    exact absurd (zfill_mem_digit w v₂.toNat '-' hm) (by decide)
  · simp only [h₁, h₂, if_true, if_false] at h
    have hm : '-' ∈ zfill w (decChars v₁.toNat) := h.symm ▸ List.mem_cons_self _ _
    exact absurd (zfill_mem_digit w v₁.toNat '-' hm) (by decide)
  · simp only [h₁, h₂, if_false] at h
    have := congrArg digitsValNat h
    rw [digitsValNat_zfill, digitsValNat_zfill,
        digitsValNat_decChars, digitsValNat_decChars] at this
    omega

/-- Configured pad width; embeds `_pad_width` (counter_store.py): the settings
value when it is a positive int, else the default 3.  `none` models an absent
or non-int setting value. -/
def pad_width (setting : Option Int) : Nat :=
  match setting with
  | some w => if 0 < w then w.toNat else 3
  | none => 3

/-- Formatted document number characters: `f"{prefix}-{value:0{pad}d}"`. -/
def formatChars (t : DocumentType) (pad : Nat) (v : Int) : List Char :=
  prefixChars t ++ '-' :: pyIntPad pad v

/-- Embeds `_format_number` (counter_store.py), parameterised by the pad width. -/
def format_number (t : DocumentType) (pad : Nat) (v : Int) : String :=
  String.mk (formatChars t pad v)

/-- Embeds the f-strings of `DocumentCounter.get_next_*_number` (models.py):
prefix directly followed by the value zero-padded to a hard-coded width 3 —
note: no hyphen, unlike `_format_number`. -/
def django_number (t : DocumentType) (v : Int) : String :=
  String.mk (prefixChars t ++ pyIntPad 3 v)

theorem format_number_inj {t : DocumentType} {pad : Nat} {v₁ v₂ : Int}
    (h : format_number t pad v₁ = format_number t pad v₂) : v₁ = v₂ := by
  have hl : formatChars t pad v₁ = formatChars t pad v₂ := by
    have := congrArg String.data h
    simpa [format_number] using this
  unfold formatChars at hl
  have h₂ := List.append_cancel_left hl
  exact pyIntPad_inj (List.cons.inj h₂).2

theorem django_number_inj {t : DocumentType} {v₁ v₂ : Int}
    (h : django_number t v₁ = django_number t v₂) : v₁ = v₂ := by
  have hl : prefixChars t ++ pyIntPad 3 v₁ = prefixChars t ++ pyIntPad 3 v₂ := by
    have := congrArg String.data h
    simpa [django_number] using this
  exact pyIntPad_inj (List.append_cancel_left hl)

/-! ## Counter state and the two counter stores -/

/-- The three integer counters of the singleton `DocumentCounter` row
(invoices/models.py) and of the Firestore counter document. -/
structure Counters where
  invoice : Int
  receipt : Int
  waybill : Int
deriving DecidableEq, Repr

/-- Read the counter field `_FIELD_NAMES[t]`. -/
def Counters.get (c : Counters) : DocumentType → Int
  | .invoice => c.invoice
  | .receipt => c.receipt
  | .waybill => c.waybill

/-- Write the counter field of one document type. -/
def Counters.set (c : Counters) : DocumentType → Int → Counters
  | .invoice, v => { c with invoice := v }
  | .receipt, v => { c with receipt := v }
  | .waybill, v => { c with waybill := v }

/-- Embeds `DocumentCounter.get_instance` (`get_or_create(pk=1)`) on the lazily
created singleton row: the row's field defaults are all 1. -/
def django_ensure (s : Option Counters) : Counters :=
  s.getD ⟨1, 1, 1⟩

/-- Observed counter values of the local store (absent row reads as defaults). -/
def django_obs (s : Option Counters) (t : DocumentType) : Int :=
  (django_ensure s).get t

/-- Embeds `DjangoModelCounterStore.peek`: `get_instance` (which persists the
default row if absent), then `_format_number` with the configured pad width. -/
def django_peek (pad : Nat) (s : Option Counters) (t : DocumentType) :
    String × Option Counters :=
  (format_number t pad ((django_ensure s).get t), some (django_ensure s))

/-- Embeds `DjangoModelCounterStore.reserve`, which delegates to
`DocumentCounter.get_next_invoice_number` / `..._receipt_...` / `..._waybill_...`:
read the current field, increment it by 1, save, and return the f-string
`f"INV{current:03d}"` (etc.) of the pre-increment value. -/
def django_reserve (s : Option Counters) (t : DocumentType) :
    String × Option Counters :=
  (django_number t ((django_ensure s).get t),
   some ((django_ensure s).set t ((django_ensure s).get t + 1)))

/-- Embeds `DjangoModelCounterStore.counts` over
`DocumentCounter.get_current_counts`: each count is the counter value minus 1. -/
def django_counts (s : Option Counters) :
    (DocumentType → Int) × Option Counters :=
  (fun t => (django_ensure s).get t - 1, some (django_ensure s))

/-- The Firestore counter document: each of the three fields may be missing
from the stored document (`data.get(field, 1)` supplies the default 1). -/
structure FsDoc where
  invoice : Option Int
  receipt : Option Int
  waybill : Option Int
deriving DecidableEq, Repr

def FsDoc.get (d : FsDoc) : DocumentType → Option Int
  | .invoice => d.invoice
  | .receipt => d.receipt
  | .waybill => d.waybill

def FsDoc.set (d : FsDoc) : DocumentType → Option Int → FsDoc
  | .invoice, v => { d with invoice := v }
  | .receipt, v => { d with receipt := v }
  | .waybill, v => { d with waybill := v }

/-- `_default_state`: all three fields present with `_DEFAULT_START = 1`. -/
def fs_default : FsDoc := ⟨some 1, some 1, some 1⟩

/-- Reading one field of an existing document: `int(data.get(field_name, 1))`. -/
def fs_read (d : FsDoc) (t : DocumentType) : Int :=
  (d.get t).getD 1

/-- Observed counter values of the Firestore store (`none` = document absent). -/
def fs_obs (s : Option FsDoc) (t : DocumentType) : Int :=
  match s with
  | none => 1
  | some d => fs_read d t

/-- Embeds `FirestoreCounterStore.peek` via `_ensure_document`: a missing
document is created with the default state, then the requested field is
formatted without incrementing anything. -/
def fs_peek (pad : Nat) (s : Option FsDoc) (t : DocumentType) :
    String × Option FsDoc :=
  match s with
  | none => (format_number t pad 1, some fs_default)
  | some d => (format_number t pad (fs_read d t), some d)

/-- Embeds the transaction body of `FirestoreCounterStore.reserve`: read the
snapshot (creating the default document when absent), take the current field
value, merge-write `current + 1` into that one field, and return
`_format_number` of the pre-increment value. -/
def fs_reserve (pad : Nat) (s : Option FsDoc) (t : DocumentType) :
    String × Option FsDoc :=
  match s with
  | none => (format_number t pad 1, some (fs_default.set t (some 2)))
  | some d =>
      (format_number t pad (fs_read d t), some (d.set t (some (fs_read d t + 1))))

/-- Embeds `FirestoreCounterStore.counts` via `_ensure_document`. -/
def fs_counts (s : Option FsDoc) : (DocumentType → Int) × Option FsDoc :=
  match s with
  | none => (fun _ => 0, some fs_default)
  | some d => (fun t => fs_read d t - 1, some d)

/-! ### Serialized traces of store operations

Concurrency model: the local store wraps each `reserve` in
`transaction.atomic` and the Firestore store in a server-side transaction, so
every completed operation takes effect atomically; a set of concurrent calls
is modelled by the (arbitrary) sequence in which their transactions commit. -/

/-- One store operation, as issued by the public API functions. -/
inductive StoreOp where
  | peekOp (t : DocumentType)
  | reserveOp (t : DocumentType)
  | countsOp
deriving DecidableEq, Repr

def fs_step (pad : Nat) (op : StoreOp) (s : Option FsDoc) : Option FsDoc :=
  match op with
  | .peekOp t => (fs_peek pad s t).2
  | .reserveOp t => (fs_reserve pad s t).2
  | .countsOp => (fs_counts s).2

def fs_run (pad : Nat) (ops : List StoreOp) (s : Option FsDoc) : Option FsDoc :=
  ops.foldl (fun s op => fs_step pad op s) s

/-- The `(document type, returned number)` pairs produced by the `reserve`
operations of a serialized operation sequence against the Firestore store. -/
def fs_trace (pad : Nat) : List StoreOp → Option FsDoc → List (DocumentType × String)
  | [], _ => []
  | op :: ops, s =>
      (match op with
       | .reserveOp t => [(t, (fs_reserve pad s t).1)]
       | .peekOp _ => []
       | .countsOp => []) ++ fs_trace pad ops (fs_step pad op s)

def django_step (pad : Nat) (op : StoreOp) (s : Option Counters) : Option Counters :=
  match op with
  | .peekOp t => (django_peek pad s t).2
  | .reserveOp t => (django_reserve s t).2
  | .countsOp => (django_counts s).2

def django_run (pad : Nat) (ops : List StoreOp) (s : Option Counters) :
    Option Counters :=
  ops.foldl (fun s op => django_step pad op s) s

/-- Reserve outputs of a serialized operation sequence against the local store. -/
def django_trace (pad : Nat) :
    List StoreOp → Option Counters → List (DocumentType × String)
  | [], _ => []
  | op :: ops, s =>
      (match op with
       | .reserveOp t => [(t, (django_reserve s t).1)]
       | .peekOp _ => []
       | .countsOp => []) ++ django_trace pad ops (django_step pad op s)

theorem counters_get_set (c : Counters) (t u : DocumentType) (v : Int) :
    (c.set t v).get u = if u = t then v else c.get u := by
  cases t <;> cases u <;> simp [Counters.get, Counters.set]

theorem fsdoc_get_set (d : FsDoc) (t u : DocumentType) (v : Option Int) :
    (d.set t v).get u = if u = t then v else d.get u := by
  cases t <;> cases u <;> simp [FsDoc.get, FsDoc.set]

theorem fs_obs_peek (pad : Nat) (s : Option FsDoc) (t u : DocumentType) :
    fs_obs (fs_peek pad s t).2 u = fs_obs s u := by
  cases s with
  | none => cases u <;> rfl
  | some d => rfl

theorem fs_obs_counts (s : Option FsDoc) (u : DocumentType) :
    fs_obs (fs_counts s).2 u = fs_obs s u := by
  cases s with
  | none => cases u <;> rfl
  | some d => rfl

theorem fs_reserve_fst (pad : Nat) (s : Option FsDoc) (t : DocumentType) :
    (fs_reserve pad s t).1 = format_number t pad (fs_obs s t) := by
  cases s <;> rfl

theorem fs_obs_reserve (pad : Nat) (s : Option FsDoc) (t u : DocumentType) :
    fs_obs (fs_reserve pad s t).2 u =
      if u = t then fs_obs s t + 1 else fs_obs s u := by
  cases s with
  | none =>
      simp only [fs_reserve, fs_obs, fs_read, fsdoc_get_set]
      by_cases h : u = t
      · simp [h]
      · simp only [h, if_false]
        cases u <;> rfl
  | some d =>
      simp only [fs_reserve, fs_obs, fs_read, fsdoc_get_set]
      by_cases h : u = t <;> simp [h]

theorem django_obs_peek (pad : Nat) (s : Option Counters) (t u : DocumentType) :
    django_obs (django_peek pad s t).2 u = django_obs s u := by
  cases s <;> rfl

theorem django_obs_counts (s : Option Counters) (u : DocumentType) :
    django_obs (django_counts s).2 u = django_obs s u := by
  cases s <;> rfl

theorem django_reserve_fst (s : Option Counters) (t : DocumentType) :
    (django_reserve s t).1 = django_number t (django_obs s t) := rfl

theorem django_obs_reserve (s : Option Counters) (t u : DocumentType) :
    django_obs (django_reserve s t).2 u =
      if u = t then django_obs s t + 1 else django_obs s u := by
  simp only [django_reserve, django_obs, django_ensure, Option.getD_some,
    counters_get_set]

theorem fs_obs_step (pad : Nat) (op : StoreOp) (s : Option FsDoc)
    (t : DocumentType) : fs_obs s t ≤ fs_obs (fs_step pad op s) t := by
  cases op with
  | peekOp u => rw [fs_step, fs_obs_peek]
  | countsOp => rw [fs_step, fs_obs_counts]
  | reserveOp u =>
      rw [fs_step, fs_obs_reserve]
      by_cases h : t = u
      · rw [if_pos h]
        subst h
        omega
      · rw [if_neg h]

theorem fs_obs_run (pad : Nat) (ops : List StoreOp) (s : Option FsDoc)
    (t : DocumentType) : fs_obs s t ≤ fs_obs (fs_run pad ops s) t := by
  induction ops generalizing s with
  | nil => exact le_refl _
  | cons op ops ih =>
      calc fs_obs s t ≤ fs_obs (fs_step pad op s) t := fs_obs_step pad op s t
        _ ≤ _ := ih _

theorem django_obs_step (pad : Nat) (op : StoreOp) (s : Option Counters)
    (t : DocumentType) : django_obs s t ≤ django_obs (django_step pad op s) t := by
  cases op with
  | peekOp u => rw [django_step, django_obs_peek]
  | countsOp => rw [django_step, django_obs_counts]
  | reserveOp u =>
      rw [django_step, django_obs_reserve]
      by_cases h : t = u
      · rw [if_pos h]
        subst h
        omega
      · rw [if_neg h]

theorem django_obs_run (pad : Nat) (ops : List StoreOp) (s : Option Counters)
    (t : DocumentType) : django_obs s t ≤ django_obs (django_run pad ops s) t := by
  induction ops generalizing s with
  | nil => exact le_refl _
  | cons op ops ih =>
      calc django_obs s t ≤ django_obs (django_step pad op s) t :=
            django_obs_step pad op s t
        _ ≤ _ := ih _

theorem fs_trace_mem (pad : Nat) (t : DocumentType) :
    ∀ (ops : List StoreOp) (s : Option FsDoc) (x : DocumentType × String),
      x ∈ fs_trace pad ops s → x.1 = t →
      ∃ v : Int, fs_obs s t ≤ v ∧ x.2 = format_number t pad v := by
  intro ops
  induction ops with
  | nil => intro s x hx; simp [fs_trace] at hx
  | cons op ops ih =>
      intro s x hx ht
      cases op with
      | peekOp u =>
          rw [fs_trace, List.nil_append] at hx
          rcases ih _ x hx ht with ⟨v, hv, hfmt⟩
          exact ⟨v, le_trans (fs_obs_step pad (.peekOp u) s t) hv, hfmt⟩
      | countsOp =>
          rw [fs_trace, List.nil_append] at hx
          rcases ih _ x hx ht with ⟨v, hv, hfmt⟩
          exact ⟨v, le_trans (fs_obs_step pad .countsOp s t) hv, hfmt⟩
      | reserveOp u =>
          rw [fs_trace, List.singleton_append] at hx
          rcases List.mem_cons.mp hx with h₁ | h₂
          · subst h₁
            have hu : u = t := ht
            subst hu
            exact ⟨fs_obs s u, le_refl _, fs_reserve_fst pad s u⟩
          · rcases ih _ x h₂ ht with ⟨v, hv, hfmt⟩
            exact ⟨v, le_trans (fs_obs_step pad (.reserveOp u) s t) hv, hfmt⟩

theorem fs_trace_nodup (pad : Nat) (t : DocumentType) :
    ∀ (ops : List StoreOp) (s : Option FsDoc),
      (((fs_trace pad ops s).filter (fun x => x.1 == t)).map Prod.snd).Nodup := by
  intro ops
  induction ops with
  | nil => intro s; simp [fs_trace]
  | cons op ops ih =>
      intro s
      cases op with
      | peekOp u =>
          rw [fs_trace, List.nil_append]
          exact ih _
      | countsOp =>
          rw [fs_trace, List.nil_append]
          exact ih _
      | reserveOp u =>
          rw [fs_trace, List.singleton_append, List.filter_cons]
          by_cases hu : u = t
          · subst hu
            rw [if_pos (by simp), List.map_cons, List.nodup_cons]
            refine ⟨?_, ih _⟩
            intro hmem
            rcases List.mem_map.mp hmem with ⟨x, hx, hsnd⟩
            have hxt : x.1 = u := by
              have := List.of_mem_filter hx
              exact eq_of_beq this
            rcases fs_trace_mem pad u ops (fs_step pad (.reserveOp u) s) x
                (List.mem_of_mem_filter hx) hxt with ⟨v, hv, hfmt⟩
            have hstep : fs_obs (fs_step pad (.reserveOp u) s) u =
                fs_obs s u + 1 := by
              rw [fs_step, fs_obs_reserve]; simp
            rw [hstep] at hv
            have heq : (fs_reserve pad s u).1 = format_number u pad v := by
              rw [hsnd] at hfmt; exact hfmt
            rw [fs_reserve_fst pad s u] at heq
            have := format_number_inj heq
            omega
          · rw [if_neg (by simp [hu])]
            exact ih _

theorem django_trace_mem (pad : Nat) (t : DocumentType) :
    ∀ (ops : List StoreOp) (s : Option Counters) (x : DocumentType × String),
      x ∈ django_trace pad ops s → x.1 = t →
      ∃ v : Int, django_obs s t ≤ v ∧ x.2 = django_number t v := by
  intro ops
  induction ops with
  | nil => intro s x hx; simp [django_trace] at hx
  | cons op ops ih =>
      intro s x hx ht
      cases op with
      | peekOp u =>
          rw [django_trace, List.nil_append] at hx
          rcases ih _ x hx ht with ⟨v, hv, hfmt⟩
          exact ⟨v, le_trans (django_obs_step pad (.peekOp u) s t) hv, hfmt⟩
      | countsOp =>
          rw [django_trace, List.nil_append] at hx
          rcases ih _ x hx ht with ⟨v, hv, hfmt⟩
          exact ⟨v, le_trans (django_obs_step pad .countsOp s t) hv, hfmt⟩
      | reserveOp u =>
          rw [django_trace, List.singleton_append] at hx
          rcases List.mem_cons.mp hx with h₁ | h₂
          · subst h₁
            have hu : u = t := ht
            subst hu
            exact ⟨django_obs s u, le_refl _, django_reserve_fst s u⟩
          · rcases ih _ x h₂ ht with ⟨v, hv, hfmt⟩
            exact ⟨v, le_trans (django_obs_step pad (.reserveOp u) s t) hv, hfmt⟩

theorem django_trace_nodup (pad : Nat) (t : DocumentType) :
    ∀ (ops : List StoreOp) (s : Option Counters),
      (((django_trace pad ops s).filter (fun x => x.1 == t)).map Prod.snd).Nodup := by
  intro ops
  induction ops with
  | nil => intro s; simp [django_trace]
  | cons op ops ih =>
      intro s
      cases op with
      | peekOp u =>
          rw [django_trace, List.nil_append]
          exact ih _
      | countsOp =>
          rw [django_trace, List.nil_append]
          exact ih _
      | reserveOp u =>
          rw [django_trace, List.singleton_append, List.filter_cons]
          by_cases hu : u = t
          · subst hu
            rw [if_pos (by simp), List.map_cons, List.nodup_cons]
            refine ⟨?_, ih _⟩
            intro hmem
            rcases List.mem_map.mp hmem with ⟨x, hx, hsnd⟩
            have hxt : x.1 = u := by
              have := List.of_mem_filter hx
              exact eq_of_beq this
            rcases django_trace_mem pad u ops (django_step pad (.reserveOp u) s) x
                (List.mem_of_mem_filter hx) hxt with ⟨v, hv, hfmt⟩
            have hstep : django_obs (django_step pad (.reserveOp u) s) u =
                django_obs s u + 1 := by
              rw [django_step, django_obs_reserve]; simp
            rw [hstep] at hv
            have heq : (django_reserve s u).1 = django_number u v := by
              rw [hsnd] at hfmt; exact hfmt
            rw [django_reserve_fst s u] at heq
            have := django_number_inj heq
            omega
          · rw [if_neg (by simp [hu])]
            exact ih _

/-! ## Decimal values and their exact string serialization

`DecimalField` values and the monetary entries of the archive are
`decimal.Decimal` numbers with a non-negative number of fraction digits:
`PyDecimal c s` denotes `c * 10 ^ (-s)`.  `_decimal_to_str` (project_io.py)
is `format(value, "f")`; `_parse_decimal` is `Decimal(str(value))`. -/

structure PyDecimal where
  coeff : Int
  scale : Nat
deriving DecidableEq, Repr

/-- Characters of `format(value, "f")`: sign, integer digits, and — when the
exponent is negative — a point followed by exactly `scale` fraction digits. -/
def decimalChars (d : PyDecimal) : List Char :=
  (if d.coeff < 0 then ['-'] else []) ++
    (if d.scale = 0 then decChars d.coeff.natAbs
     else decChars (d.coeff.natAbs / 10 ^ d.scale) ++
       '.' :: zfill d.scale (decChars (d.coeff.natAbs % 10 ^ d.scale)))

/-- Embeds `_decimal_to_str` (project_io.py): `format(value, "f")`. -/
def decimal_to_str (d : PyDecimal) : String := String.mk (decimalChars d)

def isDigitCh (c : Char) : Bool :=
  decide (48 ≤ c.toNat) && decide (c.toNat ≤ 57)

/-- Parse an unsigned decimal literal (digits, optionally `digits.digits`
where either side may be empty but not both), as accepted by `Decimal(str)`.
Returns the coefficient and the number of fraction digits. -/
def parseUDec (l : List Char) : Option (Nat × Nat) :=
  let ip := l.takeWhile (fun c => c ≠ '.')
  let rest := l.dropWhile (fun c => c ≠ '.')
  if ip.all isDigitCh then
    if rest.isEmpty then
      if ip.isEmpty then none else some (digitsValNat ip, 0)
    else
      if rest.tail.all isDigitCh && (!ip.isEmpty || !rest.tail.isEmpty) then
        some (digitsValNat ip * 10 ^ rest.tail.length + digitsValNat rest.tail,
          rest.tail.length)
      else none
  else none

/-- Parse a plain signed decimal literal: the fragment of `Decimal(str)`
exercised by this code base (scientific notation, `+` signs and the other
exotic forms `decimal` accepts are treated as unparsable). -/
def parseDecChars (l : List Char) : Option PyDecimal :=
  if l.head? = some '-' then
    (parseUDec l.tail).map (fun p => ⟨-(p.1 : Int), p.2⟩)
  else
    (parseUDec l).map (fun p => ⟨(p.1 : Int), p.2⟩)

theorem takeWhile_append_all (p : Char → Bool) :
    ∀ l₁ l₂ : List Char, (∀ c ∈ l₁, p c = true) →
      (l₁ ++ l₂).takeWhile p = l₁ ++ l₂.takeWhile p := by
  intro l₁
  induction l₁ with
  | nil => intro l₂ h; simp
  | cons a l ih =>
      intro l₂ h
      have ha : p a = true := h a (List.mem_cons_self a l)
      rw [List.cons_append, List.takeWhile_cons, if_pos ha, List.cons_append,
        ih l₂ (fun c hc => h c (List.mem_cons_of_mem a hc))]

theorem dropWhile_append_all (p : Char → Bool) :
    ∀ l₁ l₂ : List Char, (∀ c ∈ l₁, p c = true) →
      (l₁ ++ l₂).dropWhile p = l₂.dropWhile p := by
  intro l₁
  induction l₁ with
  | nil => intro l₂ h; simp
  | cons a l ih =>
      intro l₂ h
      have ha : p a = true := h a (List.mem_cons_self a l)
      rw [List.cons_append, List.dropWhile_cons, if_pos ha,
        ih l₂ (fun c hc => h c (List.mem_cons_of_mem a hc))]

theorem decChars_not_dot (n : Nat) :
    ∀ c ∈ decChars n, decide (c ≠ '.') = true := by
  intro c hc
  have hd := decChars_mem_digit n c hc
  rw [decide_eq_true_eq]
  intro hdot
  rw [hdot] at hd
  exact absurd hd (by decide)

theorem zfill_not_dot (w n : Nat) :
    ∀ c ∈ zfill w (decChars n), decide (c ≠ '.') = true := by
  intro c hc
  have hd := zfill_mem_digit w n c hc
  rw [decide_eq_true_eq]
  intro hdot
  rw [hdot] at hd
  exact absurd hd (by decide)

theorem decChars_all_digit (n : Nat) : (decChars n).all isDigitCh = true := by
  rw [List.all_eq_true]
  intro c hc
  have hd := decChars_mem_digit n c hc
  simp [isDigitCh, hd.1, hd.2]

theorem zfill_all_digit (w n : Nat) :
    (zfill w (decChars n)).all isDigitCh = true := by
  rw [List.all_eq_true]
  intro c hc
  have hd := zfill_mem_digit w n c hc
  simp [isDigitCh, hd.1, hd.2]

theorem head_ne_minus_append (n : Nat) (l₂ : List Char) :
    (decChars n ++ l₂).head? ≠ some '-' := by
  rcases List.exists_cons_of_ne_nil (decChars_ne_nil n) with ⟨a, as, ha⟩
  rw [ha, List.cons_append, List.head?_cons]
  intro hsome
  have haeq : a = '-' := by simpa using hsome
  have hmem : a ∈ decChars n := ha ▸ List.mem_cons_self a as
  rw [haeq] at hmem
  exact absurd (decChars_mem_digit n '-' hmem) (by decide)

theorem decChars_length_le : ∀ k n : Nat, 1 ≤ k → n < 10 ^ k →
    (decChars n).length ≤ k := by
  intro k n
  induction n using Nat.strong_induction_on generalizing k with
  | _ n ih =>
      intro hk hn
      rw [decChars_eq]
      by_cases h : n < 10
      · rw [if_pos h]
        simp only [List.length_singleton]
        omega
      · have hk2 : 2 ≤ k := by
          by_contra hcon
          have hk1 : k = 1 := by omega
          rw [hk1] at hn
          simp at hn
          omega
        rw [if_neg h]
        simp only [List.length_append, List.length_singleton]
        have hdiv : n / 10 < 10 ^ (k - 1) := by
          have h10 : 0 < 10 := by omega
          rw [Nat.div_lt_iff_lt_mul h10]
          have hpow : 10 ^ (k - 1) * 10 = 10 ^ k := by
            rw [← pow_succ]
            congr 1
            omega
          omega
        have := ih (n / 10) (Nat.div_lt_self (by omega) (by omega)) (k := k - 1)
          (by omega) hdiv
        omega

theorem zfill_length (w : Nat) (l : List Char) (h : l.length ≤ w) :
    (zfill w l).length = w := by
  simp only [zfill, List.length_append, List.length_replicate]
  omega

theorem parseUDec_core (s : Nat) (n : Nat) : parseUDec
    (if s = 0 then decChars n
     else decChars (n / 10 ^ s) ++ '.' :: zfill s (decChars (n % 10 ^ s))) =
    some (n, s) := by
  by_cases hs : s = 0
  · subst hs
    rw [if_pos rfl]
    simp only [parseUDec]
    rw [List.takeWhile_eq_self_iff.mpr (decChars_not_dot n),
        List.dropWhile_eq_nil_iff.mpr (decChars_not_dot n)]
    rw [if_pos (decChars_all_digit n), if_pos (by rfl),
      if_neg (by simp [List.isEmpty_iff, decChars_ne_nil n])]
    rw [digitsValNat_decChars]
  · rw [if_neg hs]
    simp only [parseUDec]
    have htw : List.takeWhile (fun c => c ≠ '.')
        ('.' :: zfill s (decChars (n % 10 ^ s))) = [] := by
      simp [List.takeWhile_cons]
    have hdw : List.dropWhile (fun c => c ≠ '.')
        ('.' :: zfill s (decChars (n % 10 ^ s))) =
        '.' :: zfill s (decChars (n % 10 ^ s)) := by
      simp [List.dropWhile_cons]
    rw [takeWhile_append_all _ _ _ (decChars_not_dot _),
        dropWhile_append_all _ _ _ (decChars_not_dot _), htw, hdw,
        List.append_nil]
    rw [if_pos (decChars_all_digit _),
      if_neg (by rw [List.isEmpty_cons]; exact Bool.false_ne_true),
      List.tail_cons]
    rw [if_pos]
    · have hlen : (zfill s (decChars (n % 10 ^ s))).length = s := by
        apply zfill_length
        apply decChars_length_le s _ (by omega)
        exact Nat.mod_lt _ (pow_pos (by omega) s)
      rw [digitsValNat_decChars, digitsValNat_zfill, digitsValNat_decChars,
          hlen, Nat.mul_comm (n / 10 ^ s) (10 ^ s), Nat.div_add_mod]
    · rw [zfill_all_digit, Bool.true_and]
      simp [List.isEmpty_iff, decChars_ne_nil]

/-- Round-trip of the decimal serialization: parsing `format(value, "f")`
recovers the exact decimal value. -/
theorem parseDecChars_decimalChars (d : PyDecimal) :
    parseDecChars (decimalChars d) = some d := by
  rcases d with ⟨c, s⟩
  by_cases hneg : c < 0
  · have habs : decimalChars ⟨c, s⟩ =
        '-' :: (if s = 0 then decChars c.natAbs
                else decChars (c.natAbs / 10 ^ s) ++
                  '.' :: zfill s (decChars (c.natAbs % 10 ^ s))) := by
      show (if (c < 0) then ['-'] else []) ++ _ = _
      rw [if_pos hneg, List.singleton_append]
    rw [habs, parseDecChars]
    rw [if_pos (by rw [List.head?_cons]), List.tail_cons, parseUDec_core s c.natAbs]
    simp only [Option.map_some']
    rw [Option.some_inj]
    have : -(c.natAbs : Int) = c := by omega
    rw [this]
  · have habs : decimalChars ⟨c, s⟩ =
        (if s = 0 then decChars c.natAbs
         else decChars (c.natAbs / 10 ^ s) ++
           '.' :: zfill s (decChars (c.natAbs % 10 ^ s))) := by
      show (if (c < 0) then ['-'] else []) ++ _ = _
      rw [if_neg hneg, List.nil_append]
    rw [habs, parseDecChars]
    have hne : (if s = 0 then decChars c.natAbs
         else decChars (c.natAbs / 10 ^ s) ++
           '.' :: zfill s (decChars (c.natAbs % 10 ^ s))).head? ≠ some '-' := by
      by_cases hs : s = 0
      · rw [if_pos hs]
        have := head_ne_minus_append c.natAbs []
        rwa [List.append_nil] at this
      · rw [if_neg hs]
        exact head_ne_minus_append _ _
    rw [if_neg hne, parseUDec_core s c.natAbs]
    simp only [Option.map_some']
    rw [Option.some_inj]
    have : (c.natAbs : Int) = c := by omega
    rw [this]

/-! ## JSON values, archive structure and database state -/

/-- JSON values as stored in `project.json` free-form slots (`items`,
`levies`) and in loosely typed fields.  JSON numbers written by this code
base are integers (floats do not occur in the archives the exporter
produces). -/
inductive JValue where
  | jnull
  | jbool (b : Bool)
  | jint (n : Int)
  | jstr (s : String)
  | jarr (xs : List JValue)
  | jobj (fields : List (String × JValue))

/-- Dates (`datetime.date`): opaque ordinals.  `isoformat` and
`datetime.fromisoformat(...).date()` are mutually inverse on them, so the
archive model stores the value itself. -/
abbrev PyDate := Int

/-- Timezone-aware datetimes, likewise opaque; `_dt_to_iso` / `_parse_datetime`
are mutually inverse on the values this code base produces. -/
abbrev PyDateTime := Int

/-- Parsed content of `metadata.json`.  Each slot is `none` when the key is
absent from the JSON object. -/
structure MetadataRec where
  schema_version : Option JValue := none
  exported_at : Option PyDateTime := none
  app_version : Option String := none

/-- The `counters` object of `project.json`. -/
structure CountersRec where
  invoice_counter : Option JValue := none
  receipt_counter : Option JValue := none
  waybill_counter : Option JValue := none

/-- One record of the `invoices` array of `project.json`: the dict produced
by `_serialize_invoice`, with every key optional (`data.get`).  An inner
`none` on a date slot is a JSON `null`. -/
structure InvoiceRec where
  id : Option Int := none
  customer_name : Option String := none
  issue_date : Option (Option PyDate) := none
  classification : Option String := none
  items : Option JValue := none
  subtotal : Option JValue := none
  levies : Option JValue := none
  grand_total : Option JValue := none
  created_at : Option (Option PyDateTime) := none
  updated_at : Option (Option PyDateTime) := none

/-- One record of the `receipts` array (`_serialize_receipt`). -/
structure ReceiptRec where
  id : Option Int := none
  received_from : Option String := none
  issue_date : Option (Option PyDate) := none
  amount : Option JValue := none
  description : Option String := none
  payment_method : Option String := none
  approved_by : Option String := none
  created_at : Option (Option PyDateTime) := none
  updated_at : Option (Option PyDateTime) := none

/-- One record of the `waybills` array (`_serialize_waybill`). -/
structure WaybillRec where
  id : Option Int := none
  customer_name : Option String := none
  issue_date : Option (Option PyDate) := none
  destination : Option String := none
  driver_name : Option String := none
  receiver_name : Option String := none
  items : Option JValue := none
  created_at : Option (Option PyDateTime) := none
  updated_at : Option (Option PyDateTime) := none

/-- Parsed content of `project.json`: `Option` for an absent key, the inner
`Option` for a JSON `null` (both collapsed by the code's `or {}` / `or []`). -/
structure ProjectRec where
  counters : Option (Option CountersRec) := none
  invoices : Option (Option (List InvoiceRec)) := none
  receipts : Option (Option (List ReceiptRec)) := none
  waybills : Option (Option (List WaybillRec)) := none

/-- A zip member: its name split on `/` into segments, a flag for directory
entries (names ending in `/`), and its bytes. -/
structure ArchiveMember where
  path : List String
  isDir : Bool
  content : List Nat
deriving DecidableEq, Repr

/-- A `.billproj` archive.  The two JSON members are modelled parsed-or-not:
`none` means the member is missing (`archive.read` raises `KeyError`), and
`some (.error ())` means its bytes are not valid JSON (`json.loads` raises
`JSONDecodeError`).  `members` are the remaining members (asset files and
anything else), as enumerated by `namelist()`. -/
structure Archive where
  metadata : Option (Except Unit MetadataRec) := none
  project : Option (Except Unit ProjectRec) := none
  members : List ArchiveMember := []

/-- The `Invoice` model row (invoices/models.py). -/
structure InvoiceRow where
  id : Int
  customer_name : String
  issue_date : PyDate
  classification : String
  items : JValue
  subtotal : PyDecimal
  levies : JValue
  grand_total : PyDecimal
  document_number : Option String
  created_at : PyDateTime
  updated_at : PyDateTime

/-- The `Receipt` model row (receipts/models.py). -/
structure ReceiptRow where
  id : Int
  received_from : String
  issue_date : PyDate
  amount : PyDecimal
  description : String
  payment_method : String
  approved_by : String
  document_number : Option String
  created_at : PyDateTime
  updated_at : PyDateTime

/-- The `Waybill` model row (waybills/models.py). -/
structure WaybillRow where
  id : Int
  customer_name : String
  issue_date : PyDate
  destination : String
  driver_name : String
  receiver_name : String
  items : JValue
  document_number : Option String
  created_at : PyDateTime
  updated_at : PyDateTime

/-- The mutable application state touched by export/import: the lazily
created `DocumentCounter` row, the three document tables (kept in ascending
primary-key order, matching the `order_by("id")` reads), and the files below
the assets directory as `(relative path segments, bytes)` in directory-walk
order. -/
structure AppDB where
  counter_row : Option Counters
  invoices : List InvoiceRow
  receipts : List ReceiptRow
  waybills : List WaybillRow
  assets : List (List String × List Nat)

/-- Python exceptions distinguished by the handlers of
`import_project_archive`.  `otherError` stands for every further `Exception`
subclass (`TypeError`, `decimal.InvalidOperation`, `IsADirectoryError`, ...)
reaching the blanket `except Exception` clause. -/
inductive PyExc where
  | keyError (msg : String)
  | jsonDecodeError (msg : String)
  | valueError (msg : String)
  | projectImportError (msg : String)
  | otherError (msg : String)
deriving DecidableEq, Repr

/-- The `ProjectSummary` dataclass (project_io.py). -/
structure ProjectSummary where
  invoices : Nat
  receipts : Nat
  waybills : Nat
  assets : Nat
deriving DecidableEq, Repr

/-! ## Export (`export_project_archive` and the serializers) -/

/-- Embeds `_serialize_invoice`: note that `document_number` is not among the
serialized keys. -/
def serialize_invoice (r : InvoiceRow) : InvoiceRec :=
  { id := some r.id
    customer_name := some r.customer_name
    issue_date := some (some r.issue_date)
    classification := some r.classification
    items := some r.items
    subtotal := some (.jstr (decimal_to_str r.subtotal))
    levies := some r.levies
    grand_total := some (.jstr (decimal_to_str r.grand_total))
    created_at := some (some r.created_at)
    updated_at := some (some r.updated_at) }

/-- Embeds `_serialize_receipt` (again without `document_number`). -/
def serialize_receipt (r : ReceiptRow) : ReceiptRec :=
  { id := some r.id
    received_from := some r.received_from
    issue_date := some (some r.issue_date)
    amount := some (.jstr (decimal_to_str r.amount))
    description := some r.description
    payment_method := some r.payment_method
    approved_by := some r.approved_by
    created_at := some (some r.created_at)
    updated_at := some (some r.updated_at) }

/-- Embeds `_serialize_waybill` (again without `document_number`). -/
def serialize_waybill (r : WaybillRow) : WaybillRec :=
  { id := some r.id
    customer_name := some r.customer_name
    issue_date := some (some r.issue_date)
    destination := some r.destination
    driver_name := some r.driver_name
    receiver_name := some r.receiver_name
    items := some r.items
    created_at := some (some r.created_at)
    updated_at := some (some r.updated_at) }

/-- Embeds `export_project_archive` (project_io.py): read the counter row via
`get_instance` (creating it if absent), serialize the three tables in id
order, write `metadata.json` and `project.json`, and add every asset file
under the `assets/` member name derived from its relative path.
`expected_version` is `settings.PROJECT_EXPORT_SCHEMA_VERSION`, `app_version`
is `settings.PROJECT_APP_VERSION` and `now` is `timezone.now()`. -/
def export_project_archive (expected_version : Int) (app_version : String)
    (now : PyDateTime) (db : AppDB) : Archive × AppDB :=
  ({ metadata := some (.ok
       { schema_version := some (.jint expected_version)
         exported_at := some now
         app_version := some app_version })
     project := some (.ok
       { counters := some (some
           { invoice_counter := some (.jint (django_ensure db.counter_row).invoice)
             receipt_counter := some (.jint (django_ensure db.counter_row).receipt)
             waybill_counter := some (.jint (django_ensure db.counter_row).waybill) })
         invoices := some (some (db.invoices.map serialize_invoice))
         receipts := some (some (db.receipts.map serialize_receipt))
         waybills := some (some (db.waybills.map serialize_waybill)) })
     members := db.assets.map (fun a => ⟨"assets" :: a.1, false, a.2⟩) },
   { db with counter_row := some (django_ensure db.counter_row) })

/-! ## Import (`import_project_archive` and its helpers) -/

/-- Embeds `_parse_date(data.get(key))`: `None`/missing/falsy gives `None`,
otherwise the parsed date (iso round-trip collapsed). -/
def parse_date (slot : Option (Option PyDate)) : Option PyDate :=
  match slot with
  | none => none
  | some none => none
  | some (some d) => some d

/-- Embeds `_parse_datetime(data.get(key))`. -/
def parse_datetime (slot : Option (Option PyDateTime)) : Option PyDateTime :=
  match slot with
  | none => none
  | some none => none
  | some (some d) => some d

/-- Embeds `_parse_decimal(data.get(key))`: `None` gives `Decimal("0")`, an
int converts exactly, a string is parsed by `Decimal(str)` (raising
`decimal.InvalidOperation` — an `ArithmeticError` — when malformed), and any
other value fails inside `Decimal(str(value))`. -/
def parse_decimal (slot : Option JValue) : Except PyExc PyDecimal :=
  match slot with
  | none => .ok ⟨0, 0⟩
  | some .jnull => .ok ⟨0, 0⟩
  | some (.jint n) => .ok ⟨n, 0⟩
  | some (.jstr str) =>
      match parseDecChars str.data with
      | some d => .ok d
      | none => .error (.otherError "decimal.InvalidOperation")
  | some (.jbool _) => .error (.otherError "decimal.InvalidOperation")
  | some (.jarr _) => .error (.otherError "decimal.InvalidOperation")
  | some (.jobj _) => .error (.otherError "decimal.InvalidOperation")

/-- Decimal-integer literal accepted by `int(str)`: optional sign then
digits (the further forms Python accepts, such as surrounding whitespace or
underscores, do not occur here and are treated as unparsable). -/
def parseIntChars (l : List Char) : Option Int :=
  if l.head? = some '-' then
    if !l.tail.isEmpty && l.tail.all isDigitCh then
      some (-(digitsValNat l.tail : Int))
    else none
  else
    if !l.isEmpty && l.all isDigitCh then some ((digitsValNat l : Int))
    else none

/-- Embeds Python `int(value)` on a JSON value, as used by
`_replace_counters`: ints pass through, bools coerce, strings parse or raise
`ValueError`, everything else raises `TypeError`. -/
def py_int (v : JValue) : Except PyExc Int :=
  match v with
  | .jint n => .ok n
  | .jbool b => .ok (if b then 1 else 0)
  | .jstr str =>
      match parseIntChars str.data with
      | some n => .ok n
      | none => .error (.valueError "invalid literal for int() with base 10")
  | .jnull => .error (.otherError "TypeError")
  | .jarr _ => .error (.otherError "TypeError")
  | .jobj _ => .error (.otherError "TypeError")

/-- Building one `Invoice(...)` kwargs set inside `_replace_documents`:
`data["id"]` raises `KeyError` when absent; the remaining fields use
`data.get` defaults.  The constructor does not receive `document_number`
and `bulk_create` bypasses `save()`, so the imported row keeps the field's
default `None`.  The archived `created_at`/`updated_at` values are parsed
and passed to the constructor here, but the non-raw insert later overwrites
them (see `insert_pre_save_invoice`). -/
def build_invoice (data : InvoiceRec) (now_d : PyDate) (now_dt : PyDateTime) :
    Except PyExc InvoiceRow :=
  match data.id with
  | none => .error (.keyError "id")
  | some i =>
  match parse_decimal data.subtotal with
  | .error e => .error e
  | .ok sub =>
  match parse_decimal data.grand_total with
  | .error e => .error e
  | .ok gt =>
  Except.ok
    { id := i
      customer_name := data.customer_name.getD ""
      issue_date := (parse_date data.issue_date).getD now_d
      classification := data.classification.getD ""
      items := data.items.getD (.jarr [])
      subtotal := sub
      levies := data.levies.getD (.jobj [])
      grand_total := gt
      document_number := none
      created_at := (parse_datetime data.created_at).getD now_dt
      updated_at := (parse_datetime data.updated_at).getD now_dt }

/-- Building one `Receipt(...)` kwargs set inside `_replace_documents`. -/
def build_receipt (data : ReceiptRec) (now_d : PyDate) (now_dt : PyDateTime) :
    Except PyExc ReceiptRow :=
  match data.id with
  | none => .error (.keyError "id")
  | some i =>
  match parse_decimal data.amount with
  | .error e => .error e
  | .ok amt =>
  Except.ok
    { id := i
      received_from := data.received_from.getD ""
      issue_date := (parse_date data.issue_date).getD now_d
      amount := amt
      description := data.description.getD ""
      payment_method := data.payment_method.getD ""
      approved_by := data.approved_by.getD ""
      document_number := none
      created_at := (parse_datetime data.created_at).getD now_dt
      updated_at := (parse_datetime data.updated_at).getD now_dt }

/-- Building one `Waybill(...)` kwargs set inside `_replace_documents`. -/
def build_waybill (data : WaybillRec) (now_d : PyDate) (now_dt : PyDateTime) :
    Except PyExc WaybillRow :=
  match data.id with
  | none => .error (.keyError "id")
  | some i =>
  Except.ok
    { id := i
      customer_name := data.customer_name.getD ""
      issue_date := (parse_date data.issue_date).getD now_d
      destination := data.destination.getD ""
      driver_name := data.driver_name.getD ""
      receiver_name := data.receiver_name.getD ""
      items := data.items.getD (.jarr [])
      document_number := none
      created_at := (parse_datetime data.created_at).getD now_dt
      updated_at := (parse_datetime data.updated_at).getD now_dt }

/-- Models Django's `field.pre_save(obj, add=True)` pass that the insert
compiler applies to every row of a non-raw `bulk_create`: the
`auto_now_add=True` field `created_at` and the `auto_now=True` field
`updated_at` are overwritten with the insert-time now, discarding the
values the constructor received from the archive (only raw/loaddata
inserts bypass this). -/
def insert_pre_save_invoice (now_dt : PyDateTime) (r : InvoiceRow) : InvoiceRow :=
  { r with created_at := now_dt, updated_at := now_dt }

/-- The same insert-time `auto_now_add`/`auto_now` overwrite for receipts. -/
def insert_pre_save_receipt (now_dt : PyDateTime) (r : ReceiptRow) : ReceiptRow :=
  { r with created_at := now_dt, updated_at := now_dt }

/-- The same insert-time `auto_now_add`/`auto_now` overwrite for waybills. -/
def insert_pre_save_waybill (now_dt : PyDateTime) (r : WaybillRow) : WaybillRow :=
  { r with created_at := now_dt, updated_at := now_dt }

/-- Left-to-right effectful map: a Python list comprehension that raises on
the first failing element. -/
def mapExcept (f : α → Except PyExc β) : List α → Except PyExc (List β)
  | [] => .ok []
  | a :: as =>
      match f a with
      | .error e => .error e
      | .ok b =>
          match mapExcept f as with
          | .error e => .error e
          | .ok bs => .ok (b :: bs)

/-- Embeds `_replace_documents`: the three `delete()` calls are implicit in
returning fresh tables; the three comprehensions run in order, and each
`bulk_create` inserts the rows in order after running the `pre_save`
overwrite of the two auto timestamp fields on every row. -/
def replace_documents (invs : List InvoiceRec) (recs : List ReceiptRec)
    (ways : List WaybillRec) (now_d : PyDate) (now_dt : PyDateTime) :
    Except PyExc (List InvoiceRow × List ReceiptRow × List WaybillRow) :=
  match mapExcept (fun d => build_invoice d now_d now_dt) invs with
  | .error e => .error e
  | .ok iRows =>
  match mapExcept (fun d => build_receipt d now_d now_dt) recs with
  | .error e => .error e
  | .ok rRows =>
  match mapExcept (fun d => build_waybill d now_d now_dt) ways with
  | .error e => .error e
  | .ok wRows =>
      Except.ok (iRows.map (insert_pre_save_invoice now_dt),
        rRows.map (insert_pre_save_receipt now_dt),
        wRows.map (insert_pre_save_waybill now_dt))

/-- Embeds `_replace_counters`: `int(data.get(field, 1))` for each field,
then `update_or_create(pk=1, defaults=...)`. -/
def replace_counters (data : CountersRec) : Except PyExc Counters :=
  match (data.invoice_counter.map py_int).getD (.ok 1) with
  | .error e => .error e
  | .ok i =>
  match (data.receipt_counter.map py_int).getD (.ok 1) with
  | .error e => .error e
  | .ok r =>
  match (data.waybill_counter.map py_int).getD (.ok 1) with
  | .error e => .error e
  | .ok w => Except.ok ⟨i, r, w⟩

/-- Normalisation `pathlib.Path(name).parts` applies to a textual path:
empty segments (from `//`) and `.` segments are dropped; `..` segments are
kept. -/
def norm_parts (p : List String) : List String :=
  p.filter (fun seg => !(seg == "") && !(seg == "."))

/-- The member filter in `import_project_archive`:
`name.startswith("assets/")` on the raw member name. -/
def starts_with_assets (m : ArchiveMember) : Bool :=
  match m.path with
  | "assets" :: rest => !rest.isEmpty || m.isDir
  | _ => false

/-- One loop iteration of `_replace_assets` up to the target computation:
`none` means the member is skipped (`continue`) — a directory entry, a name
outside `assets/` (`relative_to` raises `ValueError`), or a relative path
containing a `..` segment. -/
def asset_target (m : ArchiveMember) : Option (List String) :=
  if m.isDir then none
  else
    match norm_parts m.path with
    | "assets" :: rest => if rest.contains ".." then none else some rest
    | _ => none

/-- Embeds the write loop of `_replace_assets` (the assets directory has
already been cleared): returns the number of files written and the new
directory contents in write order.  Writing to an empty relative path (the
member name normalises to exactly `assets`) opens the assets directory
itself and raises `IsADirectoryError`. -/
def replace_assets : List ArchiveMember → Except PyExc (Nat × List (List String × List Nat))
  | [] => .ok (0, [])
  | m :: ms =>
      match asset_target m with
      | none => replace_assets ms
      | some [] => .error (.otherError "IsADirectoryError")
      | some (seg :: rest) =>
          match replace_assets ms with
          | .error e => .error e
          | .ok r => .ok (r.1 + 1, (seg :: rest, m.content) :: r.2)

/-- Python `==` between the JSON value of `metadata.get("schema_version")`
(possibly `None`) and the configured expected int: an int compares
numerically, and — because `bool` is an `int` subclass — `True`/`False`
compare as `1`/`0`; `None`, strings, lists and dicts never equal an int. -/
def py_version_eq (v : Option JValue) (expected : Int) : Bool :=
  match v with
  | some (.jint n) => n == expected
  | some (.jbool b) => (if b then (1 : Int) else 0) == expected
  | _ => false

/-- Embeds `_validate_schema_version`: raise `ProjectImportError` when
`version != expected` under Python equality. -/
def validate_schema_version (expected : Int) (v : Option JValue) :
    Except PyExc Unit :=
  if py_version_eq v expected then .ok ()
  else .error (.projectImportError "Unsupported project schema version")

/-- The body of `import_project_archive` (project_io.py): read and parse the
two JSON members, list the `assets/` members, validate the schema version,
then perform the replacement steps of the `transaction.atomic` block.
`now_d` is `timezone.localdate()` and `now_dt` is `timezone.now()`. -/
def import_body (expected : Int) (a : Archive)
    (now_d : PyDate) (now_dt : PyDateTime) :
    Except PyExc (ProjectSummary × AppDB) :=
  match a.metadata with
  | none => .error (.keyError "metadata.json")
  | some (.error _) => .error (.jsonDecodeError "Expecting value")
  | some (.ok md) =>
  match a.project with
  | none => .error (.keyError "project.json")
  | some (.error _) => .error (.jsonDecodeError "Expecting value")
  | some (.ok pj) =>
  match validate_schema_version expected md.schema_version with
  | .error e => .error e
  | .ok _ =>
  match replace_documents ((pj.invoices.getD none).getD [])
      ((pj.receipts.getD none).getD []) ((pj.waybills.getD none).getD [])
      now_d now_dt with
  | .error e => .error e
  | .ok rows =>
  match replace_counters ((pj.counters.getD none).getD {}) with
  | .error e => .error e
  | .ok counters =>
  match replace_assets (a.members.filter starts_with_assets) with
  | .error e => .error e
  | .ok assets =>
  Except.ok
    (⟨((pj.invoices.getD none).getD []).length,
      ((pj.receipts.getD none).getD []).length,
      ((pj.waybills.getD none).getD []).length, assets.1⟩,
     { counter_row := some counters
       invoices := rows.1
       receipts := rows.2.1
       waybills := rows.2.2
       assets := assets.2 })

/-- The `except` clauses of `import_project_archive`: every exception of the
body is re-raised as `ProjectImportError` (`KeyError` → missing member
message, `JSONDecodeError`/`ValueError` → invalid JSON message,
`ProjectImportError` → unchanged, anything else → generic message). -/
def import_exc_handler : PyExc → PyExc
  | .keyError m => .projectImportError ("Archive missing required file: " ++ m)
  | .jsonDecodeError _ => .projectImportError "Archive content is not valid JSON"
  | .valueError _ => .projectImportError "Archive content is not valid JSON"
  | .projectImportError m => .projectImportError m
  | .otherError _ => .projectImportError "Failed to import archive"

/-- Embeds `import_project_archive`: run the body; on success return the
summary and the mutated state, on any exception translate it through the
`except` clauses and leave the state untouched (reads happen before the
`transaction.atomic` block and the block rolls back on failure). -/
def import_project_archive (expected : Int) (a : Archive) (db : AppDB)
    (now_d : PyDate) (now_dt : PyDateTime) :
    Except PyExc ProjectSummary × AppDB :=
  match import_body expected a now_d now_dt with
  | .ok (summary, db2) => (.ok summary, db2)
  | .error e => (.error (import_exc_handler e), db)

/-! ## Invoice calculator (invoices/services/calculator.py) -/

/-- Lookup in a JSON object (`dict.get`): first binding of the key. -/
def jget (fields : List (String × JValue)) (k : String) : Option JValue :=
  ((fields.find? (fun p => p.1 == k)).map Prod.snd)

/-- Exact decimal addition (exponents aligned, as `decimal` does). -/
def decAdd (a b : PyDecimal) : PyDecimal :=
  ⟨a.coeff * (10 : Int) ^ (max a.scale b.scale - a.scale) +
     b.coeff * (10 : Int) ^ (max a.scale b.scale - b.scale),
   max a.scale b.scale⟩

/-- Exact decimal multiplication. -/
def decMul (a b : PyDecimal) : PyDecimal :=
  ⟨a.coeff * b.coeff, a.scale + b.scale⟩

/-- Rounding `num / den` half-up away from zero (`ROUND_HALF_UP`). -/
def roundHalfUpInt (num : Int) (den : Nat) : Int :=
  let q : Nat := (2 * num.natAbs + den) / (2 * den)
  if num < 0 then -(q : Int) else (q : Int)

/-- The `.quantize(Decimal("0.01"), rounding=ROUND_HALF_UP)` applied
throughout the calculator. -/
def quantize2 (d : PyDecimal) : PyDecimal :=
  if d.scale ≤ 2 then ⟨d.coeff * (10 : Int) ^ (2 - d.scale), 2⟩
  else ⟨roundHalfUpInt d.coeff (10 ^ (d.scale - 2)), 2⟩

/-- Python truthiness of a JSON value (`value or 0`, `items or []`). -/
def jfalsy (v : JValue) : Bool :=
  match v with
  | .jnull => true
  | .jbool b => !b
  | .jint n => n == 0
  | .jstr s => s.isEmpty
  | .jarr l => l.isEmpty
  | .jobj f => f.isEmpty

/-- Embeds `_to_decimal` (calculator.py): `Decimal(str(value or 0)).quantize(0.01,
ROUND_HALF_UP)`.  A falsy value becomes `Decimal("0")`; `str` of a `True`
bool or of a container is not a decimal literal, so `Decimal` raises
`InvalidOperation` (an `ArithmeticError`). -/
def to_decimal (v : JValue) : Except PyExc PyDecimal :=
  if jfalsy v then .ok (quantize2 ⟨0, 0⟩)
  else
    match v with
    | .jint n => .ok (quantize2 ⟨n, 0⟩)
    | .jstr str =>
        match parseDecChars str.data with
        | some d => .ok (quantize2 d)
        | none => .error (.otherError "decimal.InvalidOperation")
    | _ => .error (.otherError "decimal.InvalidOperation")

/-- Iteration over `items or []`: a JSON array iterates its elements, a falsy
value contributes nothing, and iterating any other truthy value fails before
`item.get` can be applied. -/
def iter_items (items : JValue) : Except PyExc (List JValue) :=
  if jfalsy items then .ok []
  else
    match items with
    | .jarr l => .ok l
    | _ => .error (.otherError "TypeError")

/-- `settings.TAX_SETTINGS` with each float rate `r` embedded as
`Decimal(str(r))`: NHIL 0.025, GETFUND 0.025, COVID 0.01, VAT 0.15. -/
def TAX_SETTINGS : List (String × PyDecimal) :=
  [("NHIL", ⟨25, 3⟩), ("GETFUND", ⟨25, 3⟩), ("COVID", ⟨1, 2⟩), ("VAT", ⟨15, 2⟩)]

/-- The per-item term of the subtotal:
`_to_decimal(item.get("quantity", 0)) * _to_decimal(item.get("unit_price", 0))`;
a non-dict item fails on `item.get` (`AttributeError`). -/
def item_term (item : JValue) : Except PyExc PyDecimal :=
  match item with
  | .jobj fields =>
      (match to_decimal ((jget fields "quantity").getD (.jint 0)) with
       | .error e => .error e
       | .ok q =>
           match to_decimal ((jget fields "unit_price").getD (.jint 0)) with
           | .error e => .error e
           | .ok p => Except.ok (decMul q p))
  | _ => .error (.otherError "AttributeError")

/-- Embeds `calculate_totals` (calculator.py): subtotal, the levies dict in
settings order, and the grand total, all quantized to two places half-up. -/
def calculate_totals (items : JValue) :
    Except PyExc (PyDecimal × List (String × PyDecimal) × PyDecimal) :=
  match iter_items items with
  | .error e => .error e
  | .ok l =>
  match mapExcept item_term l with
  | .error e => .error e
  | .ok terms =>
  let subtotal := quantize2 (terms.foldl decAdd ⟨0, 0⟩)
  let levies := TAX_SETTINGS.map
    (fun p => (p.1, quantize2 (decMul subtotal p.2)))
  let levy_total := (levies.map Prod.snd).foldl decAdd ⟨0, 2⟩
  let grand_total := quantize2 (decAdd subtotal levy_total)
  Except.ok (subtotal, levies, grand_total)

/-- Embeds `Invoice.recalculate`: recompute the three monetary fields from
the line items.  The levies dict of decimals is stored into the JSON field
as their exact decimal strings. -/
def recalculate (r : InvoiceRow) : Except PyExc InvoiceRow :=
  match calculate_totals r.items with
  | .error e => .error e
  | .ok t =>
      Except.ok
        { r with
          subtotal := t.1
          levies := .jobj (t.2.1.map (fun p => (p.1, .jstr (decimal_to_str p.2))))
          grand_total := t.2.2 }

/-! ## Store selection and the public counter API (counter_store.py) -/

/-- The outcome of `_build_store`, fixed per process: the Firestore store
when the SDK is importable, a project id is configured and construction
succeeds; the Django fallback otherwise. -/
inductive StoreSel where
  | firestoreStore
  | djangoStore
deriving DecidableEq, Repr

/-- The process-wide `_STORE` singleton together with the storage it talks
to: the selected implementation, the Firestore counter document and the
local `DocumentCounter` row. -/
structure CounterBackend where
  sel : StoreSel
  fs : Option FsDoc
  dj : Option Counters
deriving DecidableEq, Repr

/-- Embeds the module-level `peek_document_number`: delegate to the selected
store. -/
def peek_document_number (pad : Nat) (b : CounterBackend) (t : DocumentType) :
    String × CounterBackend :=
  match b.sel with
  | .firestoreStore =>
      let r := fs_peek pad b.fs t
      (r.1, { b with fs := r.2 })
  | .djangoStore =>
      let r := django_peek pad b.dj t
      (r.1, { b with dj := r.2 })

/-- Embeds the module-level `reserve_document_number`. -/
def reserve_document_number (pad : Nat) (b : CounterBackend) (t : DocumentType) :
    String × CounterBackend :=
  match b.sel with
  | .firestoreStore =>
      let r := fs_reserve pad b.fs t
      (r.1, { b with fs := r.2 })
  | .djangoStore =>
      let r := django_reserve b.dj t
      (r.1, { b with dj := r.2 })

/-- Embeds the module-level `get_document_counts`. -/
def get_document_counts (b : CounterBackend) :
    (DocumentType → Int) × CounterBackend :=
  match b.sel with
  | .firestoreStore =>
      let r := fs_counts b.fs
      (r.1, { b with fs := r.2 })
  | .djangoStore =>
      let r := django_counts b.dj
      (r.1, { b with dj := r.2 })

/-- Observed counter value of the selected store. -/
def backend_obs (b : CounterBackend) (t : DocumentType) : Int :=
  match b.sel with
  | .firestoreStore => fs_obs b.fs t
  | .djangoStore => django_obs b.dj t

/-! ## Document model save methods -/

/-- Python falsiness of a nullable string field (`if not self.document_number`). -/
def falsy_str (v : Option String) : Bool :=
  match v with
  | none => true
  | some s => s.data.isEmpty

/-- Embeds `Invoice.save`: reserve a document number when the field is unset
(`None` or empty), then recalculate totals, then persist.  The counter
effect of the reservation survives even if recalculation raises. -/
def invoice_save (pad : Nat) (r : InvoiceRow) (b : CounterBackend) :
    Except PyExc InvoiceRow × CounterBackend :=
  let assigned :=
    if falsy_str r.document_number then
      let res := reserve_document_number pad b .invoice
      ({ r with document_number := some res.1 }, res.2)
    else (r, b)
  (recalculate assigned.1, assigned.2)

/-- Embeds `Receipt.save`: reserve a document number when the field is unset,
then persist (no recalculation step). -/
def receipt_save (pad : Nat) (r : ReceiptRow) (b : CounterBackend) :
    ReceiptRow × CounterBackend :=
  if falsy_str r.document_number then
    let res := reserve_document_number pad b .receipt
    ({ r with document_number := some res.1 }, res.2)
  else (r, b)

/-- Embeds `Waybill.save`. -/
def waybill_save (pad : Nat) (r : WaybillRow) (b : CounterBackend) :
    WaybillRow × CounterBackend :=
  if falsy_str r.document_number then
    let res := reserve_document_number pad b .waybill
    ({ r with document_number := some res.1 }, res.2)
  else (r, b)

/-! ## Claim theorems -/

/-- C6: for a fixed document type and a fixed configured pad width,
`_format_number` is deterministic (it is a function) and injective in the
integer argument: `format(t, v1) = format(t, v2)` iff `v1 = v2`. -/
theorem C6_format_number_injective (t : DocumentType) (setting : Option Int)
    (v₁ v₂ : Int) :
    format_number t (pad_width setting) v₁ = format_number t (pad_width setting) v₂
      ↔ v₁ = v₂ :=
  ⟨format_number_inj, fun h => h ▸ rfl⟩

/-- C4: for every document type and counter state, on both stores: `peek` and
`counts` leave all three observed counter values unchanged; `reserve` sets
its own counter to exactly the previous value plus one, leaves the other two
unchanged, and returns the store's formatting of the previous value; and
consequently every counter is monotonically non-decreasing under any
serialized sequence of peek/reserve/counts operations. -/
theorem C4_counter_invariants (pad : Nat) (t u : DocumentType) :
    (∀ s : Option FsDoc,
      fs_obs (fs_peek pad s t).2 u = fs_obs s u ∧
      fs_obs (fs_counts s).2 u = fs_obs s u ∧
      (fs_reserve pad s t).1 = format_number t pad (fs_obs s t) ∧
      fs_obs (fs_reserve pad s t).2 u =
        (if u = t then fs_obs s t + 1 else fs_obs s u)) ∧
    (∀ s : Option Counters,
      django_obs (django_peek pad s t).2 u = django_obs s u ∧
      django_obs (django_counts s).2 u = django_obs s u ∧
      (django_reserve s t).1 = django_number t (django_obs s t) ∧
      django_obs (django_reserve s t).2 u =
        (if u = t then django_obs s t + 1 else django_obs s u)) ∧
    (∀ (ops : List StoreOp) (s : Option FsDoc),
      fs_obs s t ≤ fs_obs (fs_run pad ops s) t) ∧
    (∀ (ops : List StoreOp) (s : Option Counters),
      django_obs s t ≤ django_obs (django_run pad ops s) t) :=
  ⟨fun s => ⟨fs_obs_peek pad s t u, fs_obs_counts s u, fs_reserve_fst pad s t,
     fs_obs_reserve pad s t u⟩,
   fun s => ⟨django_obs_peek pad s t u, django_obs_counts s u,
     django_reserve_fst s t, django_obs_reserve s t u⟩,
   fun ops s => fs_obs_run pad ops s t,
   fun ops s => django_obs_run pad ops s t⟩

/-- C9: for every serialization of any set of concurrent `reserve` calls
(each call committing atomically, interleaved with arbitrary other
operations), the formatted numbers returned by the reserves of one document
type are pairwise distinct, on both stores. -/
theorem C9_concurrent_reserves_distinct (pad : Nat) (t : DocumentType)
    (ops : List StoreOp) :
    (∀ s : Option FsDoc,
      (((fs_trace pad ops s).filter (fun x => x.1 == t)).map Prod.snd).Nodup) ∧
    (∀ s : Option Counters,
      (((django_trace pad ops s).filter (fun x => x.1 == t)).map Prod.snd).Nodup) :=
  ⟨fun s => fs_trace_nodup pad t ops s, fun s => django_trace_nodup pad t ops s⟩

/-- C2 (divergence witness): with the local Django store selected, counters
all 1 and pad 3 configured, three sequential `reserve_document_number("invoice")`
calls return `"INV001"`, `"INV002"`, `"INV003"` — the hyphen-less hard-coded
model format, not the claimed `"INV-001"` ... — while
`get_document_counts()["invoice"]` does equal 3 afterwards. -/
theorem C2_django_reserve_three_unhyphenated :
    (reserve_document_number 3 ⟨.djangoStore, none, some ⟨1, 1, 1⟩⟩ .invoice).1
        = "INV001" ∧
    (reserve_document_number 3
        (reserve_document_number 3 ⟨.djangoStore, none, some ⟨1, 1, 1⟩⟩ .invoice).2
        .invoice).1 = "INV002" ∧
    (reserve_document_number 3
        (reserve_document_number 3
          (reserve_document_number 3 ⟨.djangoStore, none, some ⟨1, 1, 1⟩⟩ .invoice).2
          .invoice).2 .invoice).1 = "INV003" ∧
    (get_document_counts
        (reserve_document_number 3
          (reserve_document_number 3
            (reserve_document_number 3 ⟨.djangoStore, none, some ⟨1, 1, 1⟩⟩ .invoice).2
            .invoice).2 .invoice).2).1 DocumentType.invoice = 3 ∧
    ("INV001" : String) ≠ "INV-001" := by
  refine ⟨rfl, rfl, rfl, rfl, ?_⟩
  decide

/-- C3 (divergence witness): with the local Django store selected and pad 3,
`peek_document_number("receipt")` returns the hyphenated `"REC-001"` while the
immediately following `reserve_document_number("receipt")` returns the
hyphen-less `"REC001"` — the two calls disagree. -/
theorem C3_django_peek_reserve_disagree :
    (peek_document_number 3 ⟨.djangoStore, none, some ⟨1, 1, 1⟩⟩ .receipt).1
        = "REC-001" ∧
    (reserve_document_number 3
        (peek_document_number 3 ⟨.djangoStore, none, some ⟨1, 1, 1⟩⟩ .receipt).2
        .receipt).1 = "REC001" ∧
    ("REC-001" : String) ≠ "REC001" := by
  refine ⟨rfl, rfl, ?_⟩
  decide

theorem backend_obs_reserve (pad : Nat) (b : CounterBackend) (t u : DocumentType) :
    backend_obs (reserve_document_number pad b t).2 u =
      if u = t then backend_obs b t + 1 else backend_obs b u := by
  rcases b with ⟨sel, fs, dj⟩
  cases sel
  · simpa only [reserve_document_number, backend_obs] using fs_obs_reserve pad fs t u
  · simpa only [reserve_document_number, backend_obs] using django_obs_reserve dj t u

theorem format_number_not_falsy (t : DocumentType) (pad : Nat) (v : Int) :
    falsy_str (some (format_number t pad v)) = false := by
  cases t <;> rfl

theorem django_number_not_falsy (t : DocumentType) (v : Int) :
    falsy_str (some (django_number t v)) = false := by
  cases t <;> rfl

theorem reserve_document_number_not_falsy (pad : Nat) (b : CounterBackend)
    (t : DocumentType) :
    falsy_str (some (reserve_document_number pad b t).1) = false := by
  rcases b with ⟨sel, fs, dj⟩
  cases sel
  · rw [show (reserve_document_number pad ⟨.firestoreStore, fs, dj⟩ t).1 =
        (fs_reserve pad fs t).1 from rfl, fs_reserve_fst]
    exact format_number_not_falsy t pad _
  · rw [show (reserve_document_number pad ⟨.djangoStore, fs, dj⟩ t).1 =
        (django_reserve dj t).1 from rfl, django_reserve_fst]
    exact django_number_not_falsy t _

theorem recalculate_ok_document_number {r r2 : InvoiceRow}
    (h : recalculate r = Except.ok r2) : r2.document_number = r.document_number := by
  unfold recalculate at h
  cases hct : calculate_totals r.items with
  | error e => rw [hct] at h; simp at h
  | ok t =>
      rw [hct] at h
      simp only [Except.ok.injEq] at h
      rw [← h]

/-- C7: each document model reserves a number exactly once.  A save with an
unset (`None`/empty) `document_number` performs one reservation: it bumps the
counter of its own type by exactly one and — when the save completes — stores
the reserved string, which is non-falsy, so every later save takes the other
branch: it leaves the stored `document_number` unchanged and does not touch
the counter backend at all (for receipts and waybills the later save is the
identity, and saving twice equals saving once). -/
theorem C7_reserve_exactly_once (pad : Nat) (b : CounterBackend) :
    (∀ r : InvoiceRow, falsy_str r.document_number = true →
      (∀ u, backend_obs (invoice_save pad r b).2 u =
        (if u = DocumentType.invoice then backend_obs b DocumentType.invoice + 1
         else backend_obs b u)) ∧
      (∀ r2, (invoice_save pad r b).1 = Except.ok r2 →
        r2.document_number = some (reserve_document_number pad b .invoice).1 ∧
        falsy_str r2.document_number = false)) ∧
    (∀ r : InvoiceRow, falsy_str r.document_number = false →
      (invoice_save pad r b).2 = b ∧
      (∀ r2, (invoice_save pad r b).1 = Except.ok r2 →
        r2.document_number = r.document_number)) ∧
    (∀ r : ReceiptRow, falsy_str r.document_number = true →
      (receipt_save pad r b).1.document_number =
        some (reserve_document_number pad b .receipt).1 ∧
      falsy_str (receipt_save pad r b).1.document_number = false ∧
      (∀ u, backend_obs (receipt_save pad r b).2 u =
        (if u = DocumentType.receipt then backend_obs b DocumentType.receipt + 1
         else backend_obs b u))) ∧
    (∀ r : ReceiptRow, falsy_str r.document_number = false →
      receipt_save pad r b = (r, b)) ∧
    (∀ r : WaybillRow, falsy_str r.document_number = true →
      (waybill_save pad r b).1.document_number =
        some (reserve_document_number pad b .waybill).1 ∧
      falsy_str (waybill_save pad r b).1.document_number = false ∧
      (∀ u, backend_obs (waybill_save pad r b).2 u =
        (if u = DocumentType.waybill then backend_obs b DocumentType.waybill + 1
         else backend_obs b u))) ∧
    (∀ r : WaybillRow, falsy_str r.document_number = false →
      waybill_save pad r b = (r, b)) ∧
    (∀ r : ReceiptRow,
      receipt_save pad (receipt_save pad r b).1 (receipt_save pad r b).2 =
        receipt_save pad r b) ∧
    (∀ r : WaybillRow,
      waybill_save pad (waybill_save pad r b).1 (waybill_save pad r b).2 =
        waybill_save pad r b) := by
  have hrec_first : ∀ r : ReceiptRow, falsy_str r.document_number = true →
      receipt_save pad r b =
        ({ r with document_number := some (reserve_document_number pad b .receipt).1 },
         (reserve_document_number pad b .receipt).2) := by
    intro r hr
    rw [receipt_save, if_pos hr]
  have hway_first : ∀ r : WaybillRow, falsy_str r.document_number = true →
      waybill_save pad r b =
        ({ r with document_number := some (reserve_document_number pad b .waybill).1 },
         (reserve_document_number pad b .waybill).2) := by
    intro r hr
    rw [waybill_save, if_pos hr]
  refine ⟨?_, ?_, ?_, ?_, ?_, ?_, ?_, ?_⟩
  · intro r hr
    have hsave : invoice_save pad r b =
        (recalculate { r with document_number := some (reserve_document_number pad b DocumentType.invoice).1 },
         (reserve_document_number pad b DocumentType.invoice).2) := by
      rw [invoice_save, if_pos hr]
    constructor
    · intro u
      rw [hsave]
      exact backend_obs_reserve pad b .invoice u
    · intro r2 h2
      rw [hsave] at h2
      have hdn := recalculate_ok_document_number h2
      refine ⟨hdn, ?_⟩
      rw [hdn]
      exact reserve_document_number_not_falsy pad b .invoice
  · intro r hr
    have hsave : invoice_save pad r b = (recalculate r, b) := by
      rw [invoice_save, if_neg (by rw [hr]; exact Bool.false_ne_true)]
    refine ⟨by rw [hsave], ?_⟩
    intro r2 h2
    rw [hsave] at h2
    exact recalculate_ok_document_number h2
  · intro r hr
    rw [hrec_first r hr]
    exact ⟨rfl, reserve_document_number_not_falsy pad b .receipt,
      fun u => backend_obs_reserve pad b .receipt u⟩
  · intro r hr
    rw [receipt_save, if_neg (by rw [hr]; exact Bool.false_ne_true)]
  · intro r hr
    rw [hway_first r hr]
    exact ⟨rfl, reserve_document_number_not_falsy pad b .waybill,
      fun u => backend_obs_reserve pad b .waybill u⟩
  · intro r hr
    rw [waybill_save, if_neg (by rw [hr]; exact Bool.false_ne_true)]
  · intro r
    by_cases hr : falsy_str r.document_number = true
    · rw [hrec_first r hr]
      have hnf : falsy_str (({ r with document_number := some (reserve_document_number pad b DocumentType.receipt).1 } : ReceiptRow).document_number) = false :=
        reserve_document_number_not_falsy pad b DocumentType.receipt
      rw [receipt_save, if_neg (by rw [hnf]; exact Bool.false_ne_true)]
    · have hid : receipt_save pad r b = (r, b) := by
        rw [receipt_save, if_neg hr]
      show receipt_save pad (receipt_save pad r b).1 (receipt_save pad r b).2 =
        receipt_save pad r b
      rw [hid]
      exact hid
  · intro r
    by_cases hr : falsy_str r.document_number = true
    · rw [hway_first r hr]
      have hnf : falsy_str (({ r with document_number := some (reserve_document_number pad b DocumentType.waybill).1 } : WaybillRow).document_number) = false :=
        reserve_document_number_not_falsy pad b DocumentType.waybill
      rw [waybill_save, if_neg (by rw [hnf]; exact Bool.false_ne_true)]
    · have hid : waybill_save pad r b = (r, b) := by
        rw [waybill_save, if_neg hr]
      show waybill_save pad (waybill_save pad r b).1 (waybill_save pad r b).2 =
        waybill_save pad r b
      rw [hid]
      exact hid

/-- Witness for C7 at a concrete first save: an invoice without a number saved
against the local store with counters (1,1,1) leaves the invoice counter at 2. -/
theorem C7_reserve_exactly_once_witness :
    backend_obs (invoice_save 3
      ⟨1, "ACME", 0, "", .jarr [], ⟨0, 2⟩, .jobj [], ⟨0, 2⟩, none, 0, 0⟩
      ⟨.djangoStore, none, some ⟨1, 1, 1⟩⟩).2 DocumentType.invoice = 2 := by
  have h := ((C7_reserve_exactly_once 3 ⟨.djangoStore, none, some ⟨1, 1, 1⟩⟩).1
      ⟨1, "ACME", 0, "", .jarr [], ⟨0, 2⟩, .jobj [], ⟨0, 2⟩, none, 0, 0⟩
      (by rfl)).1 DocumentType.invoice
  rw [h]
  decide

/-- A member whose path escapes the assets directory: after `pathlib`
normalisation it does not live under the `assets` root, or its relative path
contains a `..` segment. -/
def escapes_assets (m : ArchiveMember) : Bool :=
  match norm_parts m.path with
  | "assets" :: rest => rest.contains ".."
  | _ => true

theorem escapes_assets_target_none (m : ArchiveMember)
    (h : escapes_assets m = true) : asset_target m = none := by
  unfold asset_target
  by_cases hdir : m.isDir
  · rw [if_pos hdir]
  · rw [if_neg hdir]
    unfold escapes_assets at h
    split
    · rename_i rest heq
      rw [heq] at h
      simp only at h
      rw [if_pos h]
    · rfl

theorem asset_target_no_dotdot (m : ArchiveMember) (p : List String)
    (h : asset_target m = some p) : ".." ∉ p := by
  unfold asset_target at h
  by_cases hdir : m.isDir
  · rw [if_pos hdir] at h
    exact absurd h (by simp)
  · rw [if_neg hdir] at h
    split at h
    · rename_i rest heq
      by_cases hc : rest.contains ".." = true
      · rw [if_pos hc] at h
        exact absurd h (by simp)
      · rw [if_neg hc] at h
        have hp : rest = p := by simpa using h
        rw [← hp]
        intro hmem
        exact hc (List.elem_iff.mpr hmem)
    · exact absurd h (by simp)

theorem replace_assets_skip (ms₁ ms₂ : List ArchiveMember) (m : ArchiveMember)
    (h : asset_target m = none) :
    replace_assets (ms₁ ++ m :: ms₂) = replace_assets (ms₁ ++ ms₂) := by
  induction ms₁ with
  | nil => simp only [List.nil_append, replace_assets, h]
  | cons a as ih =>
      rw [show (a :: as) ++ m :: ms₂ = a :: (as ++ m :: ms₂) from rfl,
        show (a :: as) ++ ms₂ = a :: (as ++ ms₂) from rfl,
        replace_assets, replace_assets, ih]

theorem replace_assets_ok_safe : ∀ (ms : List ArchiveMember)
    (res : Nat × List (List String × List Nat)), replace_assets ms = .ok res →
    res.1 = res.2.length ∧
    ∀ pb ∈ res.2, pb.1 ≠ [] ∧ ".." ∉ pb.1 ∧
      ∃ m ∈ ms, asset_target m = some pb.1 ∧ m.content = pb.2 := by
  intro ms
  induction ms with
  | nil =>
      intro res h
      simp only [replace_assets, Except.ok.injEq] at h
      rw [← h]
      exact ⟨rfl, by simp⟩
  | cons m ms ih =>
      intro res h
      rw [replace_assets] at h
      cases ht : asset_target m with
      | none =>
          rw [ht] at h
          rcases ih res h with ⟨hlen, hmem⟩
          refine ⟨hlen, fun pb hpb => ?_⟩
          rcases hmem pb hpb with ⟨h1, h2, m', hm', h3, h4⟩
          exact ⟨h1, h2, m', List.mem_cons_of_mem m hm', h3, h4⟩
      | some tgt =>
          cases tgt with
          | nil =>
              rw [ht] at h
              exact absurd h (by simp)
          | cons seg rest =>
              rw [ht] at h
              cases hr : replace_assets ms with
              | error e =>
                  rw [hr] at h
                  exact absurd h (by simp)
              | ok r =>
                  rw [hr] at h
                  simp only [Except.ok.injEq] at h
                  rcases ih r hr with ⟨hlen, hmem⟩
                  rw [← h]
                  constructor
                  · simp only [List.length_cons]
                    omega
                  · intro pb hpb
                    rcases List.mem_cons.mp hpb with h1 | h2
                    · subst h1
                      refine ⟨by simp, asset_target_no_dotdot m _ ht,
                        m, List.mem_cons_self m ms, ht, rfl⟩
                    · rcases hmem pb h2 with ⟨h1, h2', m', hm', h3, h4⟩
                      exact ⟨h1, h2', m', List.mem_cons_of_mem m hm', h3, h4⟩

/-- C8: during import, the asset-replacement loop writes no file for an
archive member whose path lies outside the `assets/` prefix or whose
relative path contains a `..` segment — such members are skipped without
raising; and every file the loop does write has a non-empty relative path
with no `..` segment (so it lies inside the assets directory), obtained as
the `assets`-relative path of one of the members. -/
theorem C8_asset_replacement_safety :
    (∀ (ms₁ ms₂ : List ArchiveMember) (m : ArchiveMember),
      escapes_assets m = true →
      replace_assets (ms₁ ++ m :: ms₂) = replace_assets (ms₁ ++ ms₂)) ∧
    (∀ (ms : List ArchiveMember) (cnt : Nat)
      (files : List (List String × List Nat)),
      replace_assets ms = .ok (cnt, files) →
      cnt = files.length ∧
      ∀ pb ∈ files, pb.1 ≠ [] ∧ ".." ∉ pb.1 ∧
        ∃ m ∈ ms, asset_target m = some pb.1 ∧ m.content = pb.2) :=
  ⟨fun ms₁ ms₂ m h => replace_assets_skip ms₁ ms₂ m (escapes_assets_target_none m h),
   fun ms cnt files h => replace_assets_ok_safe ms (cnt, files) h⟩

/-- Witness for C8: a member named `../x` is skipped without error, and the
surviving write of `assets/logo.png` lands at the safe relative path
`logo.png`. -/
theorem C8_asset_replacement_safety_witness :
    replace_assets [⟨[".."], false, [9]⟩, ⟨["assets", "logo.png"], false, [1]⟩]
        = replace_assets [⟨["assets", "logo.png"], false, [1]⟩] ∧
    (1 = [((["logo.png"] : List String), ([1] : List Nat))].length ∧
      ∀ pb ∈ [((["logo.png"] : List String), ([1] : List Nat))],
        pb.1 ≠ [] ∧ ".." ∉ pb.1 ∧
        ∃ m ∈ [(⟨["assets", "logo.png"], false, [1]⟩ : ArchiveMember)],
          asset_target m = some pb.1 ∧ m.content = pb.2) :=
  ⟨C8_asset_replacement_safety.1 [] [⟨["assets", "logo.png"], false, [1]⟩]
      ⟨[".."], false, [9]⟩ (by rfl),
   C8_asset_replacement_safety.2 [⟨["assets", "logo.png"], false, [1]⟩] 1
      [(["logo.png"], [1])] (by rfl)⟩

/-- C10: `import_project_archive` is total in the Python sense: on every
archive and state it either returns a summary or raises `ProjectImportError`
— every body exception (`KeyError` from a missing member or key, JSON decode
errors, `ValueError`, a propagated `ProjectImportError`, and any other
`Exception`) is mapped by the handler chain to a `ProjectImportError`, and a
failing import leaves the state unchanged. -/
theorem C10_import_raises_only_project_import_error
    (expected : Int) (a : Archive) (db : AppDB)
    (now_d : PyDate) (now_dt : PyDateTime) :
    (∃ summary db2,
      import_project_archive expected a db now_d now_dt = (.ok summary, db2)) ∨
    (∃ msg,
      import_project_archive expected a db now_d now_dt =
        (.error (.projectImportError msg), db)) := by
  cases h : import_body expected a now_d now_dt with
  | ok p =>
      rcases p with ⟨sum, db2⟩
      exact .inl ⟨sum, db2, by rw [import_project_archive, h]⟩
  | error e =>
      cases e with
      | keyError m =>
          exact .inr ⟨"Archive missing required file: " ++ m,
            by rw [import_project_archive, h]; rfl⟩
      | jsonDecodeError m =>
          exact .inr ⟨"Archive content is not valid JSON",
            by rw [import_project_archive, h]; rfl⟩
      | valueError m =>
          exact .inr ⟨"Archive content is not valid JSON",
            by rw [import_project_archive, h]; rfl⟩
      | projectImportError m =>
          exact .inr ⟨m, by rw [import_project_archive, h]; rfl⟩
      | otherError m =>
          exact .inr ⟨"Failed to import archive",
            by rw [import_project_archive, h]; rfl⟩

/-- C5: when `metadata.json` is present and parses but carries a
`schema_version` different from the codec's expected version, the import
raises `ProjectImportError` and returns the pre-existing state unchanged —
the version check sits before every mutating step, so no document, counter
or asset is touched. -/
theorem C5_schema_version_mismatch_aborts_unchanged
    (expected : Int) (a : Archive) (db : AppDB)
    (now_d : PyDate) (now_dt : PyDateTime) (md : MetadataRec)
    (hmd : a.metadata = some (.ok md))
    (hver : py_version_eq md.schema_version expected = false) :
    ∃ msg, import_project_archive expected a db now_d now_dt =
      (.error (.projectImportError msg), db) := by
  have hval : validate_schema_version expected md.schema_version =
      .error (.projectImportError "Unsupported project schema version") := by
    rw [validate_schema_version, if_neg (by rw [hver]; exact Bool.false_ne_true)]
  cases hp : a.project with
  | none =>
      have hbody : import_body expected a now_d now_dt =
          .error (.keyError "project.json") := by
        rw [import_body, hmd, hp]
      exact ⟨"Archive missing required file: project.json",
        by rw [import_project_archive, hbody]; rfl⟩
  | some pr =>
      cases pr with
      | error u =>
          have hbody : import_body expected a now_d now_dt =
              .error (.jsonDecodeError "Expecting value") := by
            rw [import_body, hmd, hp]
          exact ⟨"Archive content is not valid JSON",
            by rw [import_project_archive, hbody]; rfl⟩
      | ok pj =>
          have hbody : import_body expected a now_d now_dt =
              .error (.projectImportError "Unsupported project schema version") := by
            simp only [import_body, hmd, hp, hval]
          exact ⟨"Unsupported project schema version",
            by rw [import_project_archive, hbody]; rfl⟩

/-- Witness for C5: importing an archive whose metadata says
`schema_version = 99` into an empty database with expected version 1 yields a
`ProjectImportError` and the untouched state. -/
theorem C5_schema_version_mismatch_witness :
    ∃ msg, import_project_archive 1
        ⟨some (.ok ⟨some (.jint 99), none, none⟩),
         some (.ok ⟨none, none, none, none⟩), []⟩
        ⟨none, [], [], [], []⟩ 0 0 =
      (.error (.projectImportError msg), ⟨none, [], [], [], []⟩) :=
  C5_schema_version_mismatch_aborts_unchanged 1
    ⟨some (.ok ⟨some (.jint 99), none, none⟩),
     some (.ok ⟨none, none, none, none⟩), []⟩
    ⟨none, [], [], [], []⟩ 0 0 ⟨some (.jint 99), none, none⟩ (by rfl)
    (by decide)

/-! ## Round trip of export followed by import (C1) -/

/-- Forgetting the one field the serializers omit: an imported invoice equals
its exported original except that `document_number` comes back `None`. -/
def clear_number_invoice (r : InvoiceRow) : InvoiceRow :=
  { r with document_number := none }

def clear_number_receipt (r : ReceiptRow) : ReceiptRow :=
  { r with document_number := none }

def clear_number_waybill (r : WaybillRow) : WaybillRow :=
  { r with document_number := none }

/-- The image of an invoice row under export followed by import:
`document_number` is nulled (the serializers omit it and `bulk_create`
bypasses `save`), and both auto timestamp fields are reset to the
import-time now by the insert's `pre_save` pass. -/
def imported_invoice (now_dt : PyDateTime) (r : InvoiceRow) : InvoiceRow :=
  { r with document_number := none, created_at := now_dt, updated_at := now_dt }

/-- The image of a receipt row under export followed by import. -/
def imported_receipt (now_dt : PyDateTime) (r : ReceiptRow) : ReceiptRow :=
  { r with document_number := none, created_at := now_dt, updated_at := now_dt }

/-- The image of a waybill row under export followed by import. -/
def imported_waybill (now_dt : PyDateTime) (r : WaybillRow) : WaybillRow :=
  { r with document_number := none, created_at := now_dt, updated_at := now_dt }

/-- Well-formedness of on-disk asset paths: what `Path.rglob` can actually
yield — non-empty relative paths whose segments are real names (never empty,
`.` or `..`). -/
def wf_assets (assets : List (List String × List Nat)) : Prop :=
  ∀ pb ∈ assets, pb.1 ≠ [] ∧ ∀ seg ∈ pb.1, seg ≠ "" ∧ seg ≠ "." ∧ seg ≠ ".."

theorem parse_decimal_roundtrip (d : PyDecimal) :
    parse_decimal (some (.jstr (decimal_to_str d))) = .ok d := by
  rw [parse_decimal]
  rw [show (decimal_to_str d).data = decimalChars d from rfl,
    parseDecChars_decimalChars]

theorem build_serialize_invoice (r : InvoiceRow) (now_d : PyDate)
    (now_dt : PyDateTime) :
    build_invoice (serialize_invoice r) now_d now_dt =
      .ok (clear_number_invoice r) := by
  simp only [build_invoice, serialize_invoice, parse_decimal_roundtrip,
    parse_date, parse_datetime, clear_number_invoice, Option.getD_some]

theorem build_serialize_receipt (r : ReceiptRow) (now_d : PyDate)
    (now_dt : PyDateTime) :
    build_receipt (serialize_receipt r) now_d now_dt =
      .ok (clear_number_receipt r) := by
  simp only [build_receipt, serialize_receipt, parse_decimal_roundtrip,
    parse_date, parse_datetime, clear_number_receipt, Option.getD_some]

theorem build_serialize_waybill (r : WaybillRow) (now_d : PyDate)
    (now_dt : PyDateTime) :
    build_waybill (serialize_waybill r) now_d now_dt =
      .ok (clear_number_waybill r) := by
  simp only [build_waybill, serialize_waybill, parse_date, parse_datetime,
    clear_number_waybill, Option.getD_some]

theorem mapExcept_map_ok (f : β → Except PyExc γ) (s : α → β) (g : α → γ)
    (l : List α) (h : ∀ x ∈ l, f (s x) = .ok (g x)) :
    mapExcept f (l.map s) = .ok (l.map g) := by
  induction l with
  | nil => rfl
  | cons a as ih =>
      rw [List.map_cons, mapExcept, h a (List.mem_cons_self a as),
        ih (fun x hx => h x (List.mem_cons_of_mem a hx)), List.map_cons]

theorem norm_parts_eq_self (p : List String)
    (h : ∀ seg ∈ p, seg ≠ "" ∧ seg ≠ ".") : norm_parts p = p := by
  unfold norm_parts
  rw [List.filter_eq_self]
  intro seg hseg
  rcases h seg hseg with ⟨h1, h2⟩
  simp [h1, h2]

theorem export_assets_roundtrip (assets : List (List String × List Nat))
    (hwf : wf_assets assets) :
    replace_assets
        ((assets.map (fun a => (⟨"assets" :: a.1, false, a.2⟩ : ArchiveMember))).filter
          starts_with_assets) =
      .ok (assets.length, assets) := by
  induction assets with
  | nil => rfl
  | cons pb rest ih =>
      rcases hwf pb (List.mem_cons_self pb rest) with ⟨hne, hsegs⟩
      have hwf' : wf_assets rest := fun x hx => hwf x (List.mem_cons_of_mem pb hx)
      rcases pb with ⟨p, bytes⟩
      rcases List.exists_cons_of_ne_nil hne with ⟨seg, segs, hp⟩
      subst hp
      have hsw : starts_with_assets ⟨"assets" :: seg :: segs, false, bytes⟩ = true := by
        unfold starts_with_assets
        rfl
      rw [List.map_cons, List.filter_cons, if_pos hsw, replace_assets]
      have hnorm : norm_parts ("assets" :: seg :: segs) = "assets" :: seg :: segs := by
        apply norm_parts_eq_self
        intro s hs
        rcases List.mem_cons.mp hs with h1 | h2
        · subst h1
          exact ⟨by decide, by decide⟩
        · rcases hsegs s h2 with ⟨h1, h2', h3⟩
          exact ⟨h1, h2'⟩
      have hnc : (seg :: segs).contains ".." = false := by
        cases hc : (seg :: segs).contains ".." with
        | false => rfl
        | true =>
            have hmem : ".." ∈ seg :: segs := List.elem_iff.mp hc
            rcases hsegs ".." hmem with ⟨-, -, h3⟩
            exact absurd rfl h3
      have htgt : asset_target ⟨"assets" :: seg :: segs, false, bytes⟩ =
          some (seg :: segs) := by
        unfold asset_target
        rw [if_neg (by simp)]
        rw [show norm_parts (ArchiveMember.mk ("assets" :: seg :: segs) false bytes).path
            = "assets" :: seg :: segs from hnorm]
        show (if (seg :: segs).contains ".." = true then none
              else some (seg :: segs)) = some (seg :: segs)
        rw [if_neg (by rw [hnc]; exact Bool.false_ne_true)]
      rw [htgt, ih hwf']
      rfl

/-- C1 (amended): the export/import round trip restores the counter record
exactly (the lazily ensured row), every asset file byte-for-byte, and every
serialized document field of all three types — including the decimal-string
monetary fields — except that each document's `document_number` is reset to
null (the serializers omit it and `bulk_create` bypasses `save`) and each
document's `created_at`/`updated_at` are reset to the import-time now (the
non-raw insert's `pre_save` overwrites the two auto fields). -/
theorem C1_roundtrip_amended (expected : Int) (appv : String)
    (now : PyDateTime) (db db2 : AppDB) (now_d : PyDate) (now_dt : PyDateTime)
    (hwf : wf_assets db.assets) :
    import_project_archive expected
        (export_project_archive expected appv now db).1 db2 now_d now_dt =
      (.ok ⟨db.invoices.length, db.receipts.length, db.waybills.length,
            db.assets.length⟩,
       { counter_row := some (django_ensure db.counter_row)
         invoices := db.invoices.map (imported_invoice now_dt)
         receipts := db.receipts.map (imported_receipt now_dt)
         waybills := db.waybills.map (imported_waybill now_dt)
         assets := db.assets }) := by
  have hinv := mapExcept_map_ok (fun d => build_invoice d now_d now_dt)
    serialize_invoice clear_number_invoice db.invoices
    (fun r _ => build_serialize_invoice r now_d now_dt)
  have hrec := mapExcept_map_ok (fun d => build_receipt d now_d now_dt)
    serialize_receipt clear_number_receipt db.receipts
    (fun r _ => build_serialize_receipt r now_d now_dt)
  have hway := mapExcept_map_ok (fun d => build_waybill d now_d now_dt)
    serialize_waybill clear_number_waybill db.waybills
    (fun r _ => build_serialize_waybill r now_d now_dt)
  have hdocs : replace_documents (db.invoices.map serialize_invoice)
      (db.receipts.map serialize_receipt) (db.waybills.map serialize_waybill)
      now_d now_dt =
      .ok (db.invoices.map (imported_invoice now_dt),
        db.receipts.map (imported_receipt now_dt),
        db.waybills.map (imported_waybill now_dt)) := by
    rw [replace_documents, hinv, hrec, hway]
    simp only [List.map_map]
    rfl
  have hassets := export_assets_roundtrip db.assets hwf
  have hbody : import_body expected
      (export_project_archive expected appv now db).1 now_d now_dt =
      .ok (⟨db.invoices.length, db.receipts.length, db.waybills.length,
            db.assets.length⟩,
       { counter_row := some (django_ensure db.counter_row)
         invoices := db.invoices.map (imported_invoice now_dt)
         receipts := db.receipts.map (imported_receipt now_dt)
         waybills := db.waybills.map (imported_waybill now_dt)
         assets := db.assets }) := by
    have hvalok : validate_schema_version expected (some (.jint expected)) =
        .ok () := by
      rw [validate_schema_version, if_pos (by simp [py_version_eq])]
    simp only [import_body, export_project_archive, Option.getD_some, hdocs,
      hassets, List.length_map, hvalok,
      replace_counters, py_int, Option.map_some', Option.getD_some]
  rw [import_project_archive, hbody]

/-- A concrete populated state: one invoice that already carries the document
number `INV-001`, counters advanced past it, and one asset file. -/
def sample_db : AppDB :=
  { counter_row := some ⟨2, 1, 1⟩
    invoices := [⟨10, "ACME", 5, "Standard", .jarr [], ⟨1000, 2⟩, .jobj [],
      ⟨1150, 2⟩, some "INV-001", 7, 8⟩]
    receipts := []
    waybills := []
    assets := [(["logo.png"], [1, 2, 3])] }

/-- C1 (counterexample): the round trip does not restore documents
field-for-field — the invoice exported with `document_number = "INV-001"`
comes back with `document_number = None` (`_serialize_invoice` omits the
field and the import's `bulk_create` bypasses `save`), and its archived
`created_at = 7` comes back as the import-time now `0` (the non-raw
insert's `pre_save` overwrites the `auto_now_add` field). -/
theorem C1_roundtrip_counterexample :
    (import_project_archive 1 (export_project_archive 1 "0.1.0" 0 sample_db).1
        sample_db 0 0).2.invoices.map InvoiceRow.document_number = [none] ∧
    sample_db.invoices.map InvoiceRow.document_number = [some "INV-001"] ∧
    ([none] : List (Option String)) ≠ [some "INV-001"] ∧
    (import_project_archive 1 (export_project_archive 1 "0.1.0" 0 sample_db).1
        sample_db 0 0).2.invoices.map InvoiceRow.created_at = [0] ∧
    sample_db.invoices.map InvoiceRow.created_at = [7] ∧
    ([0] : List PyDateTime) ≠ [7] := by
  refine ⟨?_, rfl, by decide, ?_, rfl, by decide⟩
  · rfl
  · rfl

/-- Witness for the amended C1 round trip at the concrete populated state. -/
theorem C1_roundtrip_amended_witness :
    import_project_archive 1 (export_project_archive 1 "0.1.0" 0 sample_db).1
        sample_db 0 0 =
      (.ok ⟨1, 0, 0, 1⟩,
       { counter_row := some (django_ensure sample_db.counter_row)
         invoices := sample_db.invoices.map (imported_invoice 0)
         receipts := sample_db.receipts.map (imported_receipt 0)
         waybills := sample_db.waybills.map (imported_waybill 0)
         assets := sample_db.assets }) :=
  C1_roundtrip_amended 1 "0.1.0" 0 sample_db sample_db 0 0
    (by unfold wf_assets; decide)
